import Mathlib

/-!
Payment modal of Code-Stem-Education.

A shallow embedding of `src/components/payments/PaymentModal.jsx`.

* React state (`useState`) is the record `World`; every `setX(v)` is a record update.
* The collaborators imported from `utils/paymentService` and `utils/storage` are not part
  of the embedded file: they are the fields of `Env`, one function per collaborator.
  Each takes the list of calls made so far, so a collaborator may answer differently
  from one call to the next.  A rejected promise / thrown error is `Except.error msg`
  where `msg` is `error.message` (`""` when it is missing).
* Every collaborator call is appended to `World.calls`.
* `setTimeout(cb, ms)` appends `cb` to `World.timers`; the event `Event.fire i` runs it.
* `await` of a collaborator is resolved before the next event is handled.
-/

namespace PaymentModal

/-! ## Data -/

/-- The value of `getCurrentUser()`. -/
structure User where
  id : String
  email : String
  name : String
  deriving DecidableEq

/-- The `lesson` prop; a field that is `undefined` is `none`. -/
structure Lesson where
  id : Option String
  title : Option String
  price : Option Int
  deriving DecidableEq

/-- The `course` prop; a field that is `undefined` is `none`. -/
structure Course where
  key : Option String
  teacherId : Option String
  title : Option String
  deriving DecidableEq

/-- What the component receives from outside: its props and `getCurrentUser()`. -/
structure Props where
  lesson : Option Lesson
  course : Option Course
  currentUser : Option User
  deriving DecidableEq

/-- The `bankDetails` state object. -/
structure BankDetails where
  bankName : String
  accountNumber : String
  phoneNumber : String
  deriving DecidableEq

/-- The `data` object of a gateway answer, kept in `paymentData`. -/
structure PaymentData where
  reference : String
  virtual_account : String
  transaction_id : String
  ussd_code : String
  deriving DecidableEq

/-- The values `setStep` is called with. -/
inductive Step where
  | select
  | processing
  | transfer_details
  | ussd_instructions
  | mobile_money_pending
  | success
  | error
  deriving DecidableEq

/-- The `metadata` object built by the paystack and flutterwave handlers. -/
structure Metadata where
  lesson_id : Option String
  lesson_title : String
  course_key : Option String
  student_id : Option String
  student_name : Option String
  deriving DecidableEq

/-- A call of a collaborator, with its arguments. -/
inductive Call where
  | initializePaystackPayment (email : String) (amount : Int) (metadata : Metadata)
  | verifyPaystackPayment (reference : String)
  | initializeFlutterwavePayment (email : String) (amount : Int) (metadata : Metadata)
  | initializeDirectBankTransfer (amount : Int) (bankDetails : BankDetails)
  | generateUSSDCode (amount : Int) (bankName : String)
  | initializeMobileMoneyPayment (phoneNumber : String) (amount : Int) (bankName : String)
  | processLessonPayment (userId : String) (teacherId courseKey lessonId : Option String)
      (amount : Int)
  | purchaseLesson (userId : String) (courseKey lessonId : Option String) (amount : Int)
  deriving DecidableEq

/-- Answer of `initializePaystackPayment`: `status` is tested for truthiness. -/
structure PaystackInit where
  status : Bool
  message : String
  data : PaymentData
  deriving DecidableEq

/-- The `data` of a paystack verification. -/
structure VerificationData where
  status : String
  reference : String
  deriving DecidableEq

/-- Answer of `verifyPaystackPayment`: `status` is tested for truthiness. -/
structure Verification where
  status : Bool
  data : VerificationData
  deriving DecidableEq

/-- Answer of the other four gateways: `status` is compared with `'success'`. -/
structure GatewayResult where
  status : String
  message : String
  data : PaymentData
  deriving DecidableEq

/-- The collaborators.  The first argument is the list of calls made before this one. -/
structure Env where
  initializePaystackPayment :
    List Call → String → Int → Metadata → Except String PaystackInit
  verifyPaystackPayment : List Call → String → Except String Verification
  initializeFlutterwavePayment :
    List Call → String → Int → Metadata → Except String GatewayResult
  initializeDirectBankTransfer : List Call → Int → BankDetails → Except String GatewayResult
  generateUSSDCode : List Call → Int → String → Except String GatewayResult
  initializeMobileMoneyPayment :
    List Call → String → Int → String → Except String GatewayResult
  processLessonPayment :
    List Call → String → Option String → Option String → Option String → Int →
      Except String Unit
  purchaseLesson :
    List Call → String → Option String → Option String → Int → Except String Bool
  now : Nat

/-- A callback handed to `setTimeout` and not yet run. -/
inductive Timer where
  | verifyPaystack (reference : String)
  | completeFlutterwave
  | confirmTransfer (paymentData : Option PaymentData)
  | notifyParent
  deriving DecidableEq

/-- The component state, the calls made so far and the callbacks still to run. -/
structure World where
  selectedMethod : String
  loading : Bool
  step : Step
  paymentData : Option PaymentData
  error : String
  bankDetails : BankDetails
  calls : List Call
  timers : List Timer
  stepLog : List Step
  onSuccessCalls : Nat
  onCloseCalls : Nat
  deriving DecidableEq

/-- What a handler returns: it finished, or it threw `msg`. -/
inductive Outcome where
  | done (w : World)
  | threw (msg : String) (w : World)
  deriving DecidableEq

/-- The state a handler leaves behind, whether it finished or threw. -/
def Outcome.world : Outcome → World
  | Outcome.done w => w
  | Outcome.threw _ w => w

/-! ## State setters -/

/-- The effect of `setStep(s)`; `stepLog` keeps every value passed. -/
def setStep (s : Step) (w : World) : World :=
  { w with step := s, stepLog := w.stepLog ++ [s] }

/-- The effect of `setError(e)`. -/
def setError (e : String) (w : World) : World := { w with error := e }

/-- The effect of `setLoading(b)`. -/
def setLoading (b : Bool) (w : World) : World := { w with loading := b }

/-- The effect of `setPaymentData(d)`. -/
def setPaymentData (d : PaymentData) (w : World) : World := { w with paymentData := some d }

/-- The effect of `setTimeout(t, _)`. -/
def setTimeout (t : Timer) (w : World) : World := { w with timers := w.timers ++ [t] }

/-- Records a collaborator call. -/
def record (c : Call) (w : World) : World := { w with calls := w.calls ++ [c] }

/-! ## The component -/

/-- The values of the `useState` calls at the first render. -/
def initial : World :=
  { selectedMethod := "paystack"
    loading := false
    step := Step.select
    paymentData := none
    error := ""
    bankDetails := { bankName := "", accountNumber := "", phoneNumber := "" }
    calls := []
    timers := []
    stepLog := []
    onSuccessCalls := 0
    onCloseCalls := 0 }

/-- The value `lesson || {}`. -/
def safeLesson (p : Props) : Lesson :=
  match p.lesson with
  | some l => l
  | none => { id := none, title := none, price := none }

/-- The value `course || {}`. -/
def safeCourse (p : Props) : Course :=
  match p.course with
  | some c => c
  | none => { key := none, teacherId := none, title := none }

/-- The value `safeLesson.price || 0`: a missing price and the price `0` give `0`. -/
def amount (p : Props) : Int :=
  match (safeLesson p).price with
  | some n => if n = 0 then 0 else n
  | none => 0

/-- The value `safeLesson.title || 'Lesson'`. -/
def lessonTitle (p : Props) : String :=
  match (safeLesson p).title with
  | some t => if t = "" then "Lesson" else t
  | none => "Lesson"

/-- The value `error.message || 'Payment failed. Please try again.'`. -/
def messageOr (msg : String) : String :=
  if msg = "" then "Payment failed. Please try again." else msg

/-- The function `completePayment`; `reference` and `gateway` are not used by its body.
Reading `currentUser.id` of a missing user throws inside the `try`. -/
def completePayment (env : Env) (p : Props) (_reference _gateway : String) (w : World) :
    World :=
  let failed (w : World) : World :=
    setStep Step.error (setError "Failed to complete payment processing" w)
  match p.currentUser with
  | none => failed w
  | some u =>
    let w1 := record (Call.processLessonPayment u.id (safeCourse p).teacherId (safeCourse p).key
      (safeLesson p).id (amount p)) w
    match env.processLessonPayment w.calls u.id (safeCourse p).teacherId (safeCourse p).key
        (safeLesson p).id (amount p) with
    | Except.error _ => failed w1
    | Except.ok _ =>
      let w2 := record (Call.purchaseLesson u.id (safeCourse p).key (safeLesson p).id
        (amount p)) w1
      match env.purchaseLesson w1.calls u.id (safeCourse p).key (safeLesson p).id
          (amount p) with
      | Except.error _ => failed w2
      | Except.ok _ => setTimeout Timer.notifyParent (setStep Step.success w2)

/-- The function `handlePaystackPayment`, for the logged-in user `u`. -/
def handlePaystackPayment (env : Env) (p : Props) (u : User) (w : World) : Outcome :=
  let w1 := setStep Step.processing w
  let metadata : Metadata :=
    { lesson_id := (safeLesson p).id
      lesson_title := lessonTitle p
      course_key := (safeCourse p).key
      student_id := some u.id
      student_name := some u.name }
  let w2 := record (Call.initializePaystackPayment u.email (amount p) metadata) w1
  match env.initializePaystackPayment w1.calls u.email (amount p) metadata with
  | Except.error msg => Outcome.threw msg w2
  | Except.ok result =>
    if result.status then
      Outcome.done (setTimeout (Timer.verifyPaystack result.data.reference)
        (setPaymentData result.data w2))
    else Outcome.threw result.message w2

/-- The callback that `handlePaystackPayment` hands to `setTimeout`.  A rejected
verification is an unhandled rejection of the callback: nothing else happens. -/
def verifyPaystackCallback (env : Env) (p : Props) (reference : String) (w : World) : World :=
  let w1 := record (Call.verifyPaystackPayment reference) w
  match env.verifyPaystackPayment w.calls reference with
  | Except.error _ => w1
  | Except.ok verification =>
    if verification.status ∧ verification.data.status = "success" then
      completePayment env p verification.data.reference "paystack" w1
    else setStep Step.error (setError "Payment verification failed" w1)

/-- The function `handleFlutterwavePayment`, for the logged-in user `u`. -/
def handleFlutterwavePayment (env : Env) (p : Props) (u : User) (w : World) : Outcome :=
  let w1 := setStep Step.processing w
  let metadata : Metadata :=
    { lesson_id := (safeLesson p).id
      lesson_title := lessonTitle p
      course_key := (safeCourse p).key
      student_id := none
      student_name := none }
  let w2 := record (Call.initializeFlutterwavePayment u.email (amount p) metadata) w1
  match env.initializeFlutterwavePayment w1.calls u.email (amount p) metadata with
  | Except.error msg => Outcome.threw msg w2
  | Except.ok result =>
    if result.status = "success" then
      Outcome.done (setTimeout Timer.completeFlutterwave (setPaymentData result.data w2))
    else Outcome.threw result.message w2

/-- The function `handleBankTransfer`. -/
def handleBankTransfer (env : Env) (p : Props) (w : World) : Outcome :=
  if w.bankDetails.bankName = "" then Outcome.done (setError "Please select a bank" w)
  else
    let w1 := setStep Step.processing w
    let w2 := record (Call.initializeDirectBankTransfer (amount p) w.bankDetails) w1
    match env.initializeDirectBankTransfer w1.calls (amount p) w.bankDetails with
    | Except.error msg => Outcome.threw msg w2
    | Except.ok result =>
      if result.status = "success" then
        Outcome.done (setStep Step.transfer_details (setPaymentData result.data w2))
      else Outcome.threw result.message w2

/-- The function `handleUSSDPayment`. -/
def handleUSSDPayment (env : Env) (p : Props) (w : World) : Outcome :=
  if w.bankDetails.bankName = "" then Outcome.done (setError "Please select a bank" w)
  else
    let w1 := record (Call.generateUSSDCode (amount p) w.bankDetails.bankName) w
    match env.generateUSSDCode w.calls (amount p) w.bankDetails.bankName with
    | Except.error msg => Outcome.threw msg w1
    | Except.ok result =>
      if result.status = "success" then
        Outcome.done (setStep Step.ussd_instructions (setPaymentData result.data w1))
      else Outcome.threw result.message w1

/-- The function `handleMobileMoneyPayment`. -/
def handleMobileMoneyPayment (env : Env) (p : Props) (w : World) : Outcome :=
  if w.bankDetails.phoneNumber = "" then
    Outcome.done (setError "Please enter your phone number" w)
  else if w.bankDetails.bankName = "" then
    Outcome.done (setError "Please select a mobile money provider" w)
  else
    let w1 := setStep Step.processing w
    let w2 := record (Call.initializeMobileMoneyPayment w.bankDetails.phoneNumber (amount p)
      w.bankDetails.bankName) w1
    match env.initializeMobileMoneyPayment w1.calls w.bankDetails.phoneNumber (amount p)
        w.bankDetails.bankName with
    | Except.error msg => Outcome.threw msg w2
    | Except.ok result =>
      if result.status = "success" then
        Outcome.done (setStep Step.mobile_money_pending (setPaymentData result.data w2))
      else Outcome.threw result.message w2

/-- The `switch (selectedMethod)` of `handlePayment`. -/
def dispatch (env : Env) (p : Props) (u : User) (w : World) : Outcome :=
  if w.selectedMethod = "paystack" then handlePaystackPayment env p u w
  else if w.selectedMethod = "flutterwave" then handleFlutterwavePayment env p u w
  else if w.selectedMethod = "bank_transfer" then handleBankTransfer env p w
  else if w.selectedMethod = "ussd" then handleUSSDPayment env p w
  else if w.selectedMethod = "mobile_money" then handleMobileMoneyPayment env p w
  else Outcome.threw "Invalid payment method" w

/-- The function `handlePayment`: the login guard, then `try / catch / finally` around
the `switch`. -/
def handlePayment (env : Env) (p : Props) (w : World) : World :=
  match p.currentUser with
  | none => setError "Please log in to make a payment" w
  | some u =>
    let w1 := setError "" (setLoading true w)
    match dispatch env p u w1 with
    | Outcome.done w2 => setLoading false w2
    | Outcome.threw msg w2 => setLoading false (setStep Step.error (setError (messageOr msg) w2))

/-- The function `handleConfirmTransfer`: the callback keeps the `paymentData` of the
render in which the button was pressed. -/
def handleConfirmTransfer (w : World) : World :=
  setTimeout (Timer.confirmTransfer w.paymentData) (setLoading true w)

/-- The callback that `handleConfirmTransfer` hands to `setTimeout`.  Reading
`paymentData.virtual_account` of a missing `paymentData` throws before `completePayment`
is entered. -/
def confirmTransferCallback (env : Env) (p : Props) (paymentData : Option PaymentData)
    (w : World) : World :=
  match paymentData with
  | none => w
  | some d => setLoading false (completePayment env p d.virtual_account "bank_transfer" w)

/-- Runs one pending callback. -/
def runTimer (env : Env) (p : Props) (t : Timer) (w : World) : World :=
  match t with
  | Timer.verifyPaystack reference => verifyPaystackCallback env p reference w
  | Timer.completeFlutterwave =>
    completePayment env p ("flutterwave_" ++ toString env.now) "flutterwave" w
  | Timer.confirmTransfer d => confirmTransferCallback env p d w
  | Timer.notifyParent => { w with onSuccessCalls := w.onSuccessCalls + 1 }

/-- The ids of `paymentMethods`. -/
def paymentMethods : List String :=
  ["paystack", "flutterwave", "bank_transfer", "ussd", "mobile_money"]

/-- What can happen to a mounted modal: the handlers that `renderStep` attaches to the
elements it renders, and a pending callback running. -/
inductive Event where
  | selectMethod (id : String)
  | setBankName (value : String)
  | setPhoneNumber (value : String)
  | clickPay
  | clickConfirmTransfer
  | clickConfirmUssd
  | clickConfirmMobileMoney
  | clickBack
  | clickRetry
  | clickClose
  | fire (i : Nat)
  deriving DecidableEq

/-- The three steps that wait for the user to attest the payment. -/
def attestationStep (s : Step) : Bool :=
  s = Step.transfer_details || s = Step.ussd_instructions || s = Step.mobile_money_pending

/-- The handlers that `renderStep` attaches to the elements it renders.  An element exists
only in the step whose `case` renders it; an event on an element that is not rendered, or
on a disabled button, changes nothing. -/
def userEvent (env : Env) (p : Props) (e : Event) (w : World) : World :=
  match e with
  | Event.selectMethod id =>
    if w.step = Step.select ∧ id ∈ paymentMethods then { w with selectedMethod := id }
    else w
  | Event.setBankName v =>
    if w.step = Step.select ∧ (w.selectedMethod = "bank_transfer" ∨
        w.selectedMethod = "ussd" ∨ w.selectedMethod = "mobile_money") then
      { w with bankDetails := { w.bankDetails with bankName := v } }
    else w
  | Event.setPhoneNumber v =>
    if w.step = Step.select ∧ w.selectedMethod = "mobile_money" then
      { w with bankDetails := { w.bankDetails with phoneNumber := v } }
    else w
  | Event.clickPay =>
    if w.step = Step.select ∧ w.loading = false then handlePayment env p w else w
  | Event.clickConfirmTransfer =>
    if w.step = Step.transfer_details ∧ w.loading = false then handleConfirmTransfer w
    else w
  | Event.clickConfirmUssd =>
    if w.step = Step.ussd_instructions then
      completePayment env p ("ussd_" ++ toString env.now) "ussd" w
    else w
  | Event.clickConfirmMobileMoney =>
    if w.step = Step.mobile_money_pending then
      match w.paymentData with
      | some d => completePayment env p d.transaction_id "mobile_money" w
      | none => w
    else w
  | Event.clickBack => if attestationStep w.step then setStep Step.select w else w
  | Event.clickRetry => if w.step = Step.error then setStep Step.select w else w
  | Event.clickClose =>
    if w.step = Step.select ∨ w.step = Step.success ∨ w.step = Step.error then
      { w with onCloseCalls := w.onCloseCalls + 1 }
    else w
  | Event.fire _ => w

/-- One event: a pending callback runs (and leaves the list), or the user acts on the
rendered modal (nothing is rendered without a `lesson`). -/
def stepEvent (env : Env) (p : Props) (e : Event) (w : World) : World :=
  match e with
  | Event.fire i =>
    match w.timers.get? i with
    | some t => runTimer env p t { w with timers := w.timers.eraseIdx i }
    | none => w
  | _ => if p.lesson.isNone then w else userEvent env p e w

/-- Runs a sequence of events, oldest first. -/
def run (env : Env) (p : Props) (es : List Event) (w : World) : World :=
  es.foldl (fun w e => stepEvent env p e w) w

/-- Whether a call is one of the two fulfilment calls. -/
def Call.isFulfilment : Call → Bool
  | Call.processLessonPayment _ _ _ _ _ => true
  | Call.purchaseLesson _ _ _ _ => true
  | _ => false

/-- Whether a call is `processLessonPayment`. -/
def Call.isProcess : Call → Bool
  | Call.processLessonPayment _ _ _ _ _ => true
  | _ => false

/-- Whether a call is `purchaseLesson`. -/
def Call.isPurchase : Call → Bool
  | Call.purchaseLesson _ _ _ _ => true
  | _ => false

/-- Whether a call initiates a payment at a gateway. -/
def Call.isInitiate : Call → Bool
  | Call.initializePaystackPayment _ _ _ => true
  | Call.initializeFlutterwavePayment _ _ _ => true
  | Call.initializeDirectBankTransfer _ _ => true
  | Call.generateUSSDCode _ _ => true
  | Call.initializeMobileMoneyPayment _ _ _ => true
  | _ => false

/-- The amount a call hands to its collaborator (`none` for the verification). -/
def Call.amount? : Call → Option Int
  | Call.initializePaystackPayment _ a _ => some a
  | Call.verifyPaystackPayment _ => none
  | Call.initializeFlutterwavePayment _ a _ => some a
  | Call.initializeDirectBankTransfer a _ => some a
  | Call.generateUSSDCode a _ => some a
  | Call.initializeMobileMoneyPayment _ a _ => some a
  | Call.processLessonPayment _ _ _ _ a => some a
  | Call.purchaseLesson _ _ _ a => some a

/-! ## Predicates of the statements -/

/-- The state before the first payment attempt: the initial values of the six `useState`
cells that matter, no collaborator call made, no callback pending. -/
def Untouched (w : World) : Prop :=
  w.step = Step.select ∧ w.loading = false ∧ w.paymentData = none ∧ w.error = "" ∧
    w.calls = [] ∧ w.timers = [] ∧ w.stepLog = []

/-- The events that can enter `completePayment`: the three confirm buttons, and a pending
callback running (the deferred confirmation of paystack, flutterwave or bank transfer). -/
def Event.confirms : Event → Bool
  | Event.clickConfirmTransfer => true
  | Event.clickConfirmUssd => true
  | Event.clickConfirmMobileMoney => true
  | Event.fire _ => true
  | _ => false

/-- The callbacks scheduled by a gateway initiation (not by a confirm button, not by a
success). -/
def Timer.isProviderConfirmation : Timer → Bool
  | Timer.verifyPaystack _ => true
  | Timer.completeFlutterwave => true
  | _ => false

/-- Nothing has been committed: no fulfilment call was made, `setStep('success')` was never
called, and the only callbacks pending are those of gateway initiations. -/
def Unconfirmed (w : World) : Prop :=
  (∀ c ∈ w.calls, c.isFulfilment = false) ∧ Step.success ∉ w.stepLog ∧
    w.step ≠ Step.success ∧ ∀ t ∈ w.timers, t.isProviderConfirmation = true

/-! ## Sample inputs -/

/-- A `data` object as a gateway could answer it. -/
def sampleData : PaymentData :=
  { reference := "ref_1", virtual_account := "0123456789", transaction_id := "tx_1",
    ussd_code := "*737*000*500000#" }

/-- The collaborators when every gateway and both storage functions succeed. -/
def happyEnv : Env :=
  { initializePaystackPayment := fun _ _ _ _ =>
      Except.ok { status := true, message := "", data := sampleData }
    verifyPaystackPayment := fun _ r =>
      Except.ok { status := true, data := { status := "success", reference := r } }
    initializeFlutterwavePayment := fun _ _ _ _ =>
      Except.ok { status := "success", message := "", data := sampleData }
    initializeDirectBankTransfer := fun _ _ _ =>
      Except.ok { status := "success", message := "", data := sampleData }
    generateUSSDCode := fun _ _ _ =>
      Except.ok { status := "success", message := "", data := sampleData }
    initializeMobileMoneyPayment := fun _ _ _ _ =>
      Except.ok { status := "success", message := "", data := sampleData }
    processLessonPayment := fun _ _ _ _ _ _ => Except.ok ()
    purchaseLesson := fun _ _ _ _ _ => Except.ok true
    now := 1700000000000 }

/-- The buyer of the sample scenario. -/
def u1 : User := { id := "u1", email := "u1@example.com", name := "Buyer One" }

/-- The lesson of the sample scenario. -/
def lessonA : Lesson := { id := some "lessonA", title := some "Lesson A", price := some 500000 }

/-- The course of the sample scenario. -/
def courseA : Course := { key := some "courseA", teacherId := some "t1", title := some "Course A" }

/-- Props of the sample scenario: buyer `u1` is logged in and buys `lessonA`. -/
def sampleProps : Props := { lesson := some lessonA, course := some courseA, currentUser := some u1 }

/-- The same props when nobody is logged in. -/
def anonymousProps : Props := { lesson := some lessonA, course := some courseA, currentUser := none }

/-- The sample lesson with a negative price. -/
def negativeLesson : Lesson :=
  { id := some "lessonA", title := some "Lesson A", price := some (-5) }

/-- Props in which buyer `u1` buys the lesson with the negative price. -/
def negativeProps : Props :=
  { lesson := some negativeLesson, course := some courseA, currentUser := some u1 }

/-- The collaborators when the paystack verification answers that the payment is still
pending. -/
def pendingEnv : Env :=
  { happyEnv with
    verifyPaystackPayment := fun _ r =>
      Except.ok { status := true, data := { status := "pending", reference := r } } }

/-- The collaborators when the paystack verification answers that the provider rejected
the payment. -/
def rejectedEnv : Env :=
  { happyEnv with
    verifyPaystackPayment := fun _ r =>
      Except.ok { status := true, data := { status := "failed", reference := r } } }

/-- The collaborators when `purchaseLesson` rejects as long as it was never called before,
and everything else succeeds. -/
def grantFailsOnceEnv : Env :=
  { happyEnv with
    purchaseLesson := fun calls _ _ _ _ =>
      if calls.any Call.isPurchase then Except.ok true else Except.error "storage unavailable" }

/-- The sample session waiting on the USSD instructions. -/
def ussdWaiting : World :=
  run happyEnv sampleProps
    [Event.selectMethod "ussd", Event.setBankName "GTB", Event.clickPay] initial

/-- The collaborators when `purchaseLesson` resolves to `false`, the value that
`App.handleLessonPurchase` reports as a failed purchase, and everything else succeeds. -/
def grantRefusedEnv : Env :=
  { happyEnv with purchaseLesson := fun _ _ _ _ _ => Except.ok false }

/-- The collaborators when `purchaseLesson` always rejects and everything else succeeds. -/
def grantRejectsEnv : Env :=
  { happyEnv with purchaseLesson := fun _ _ _ _ _ => Except.error "storage unavailable" }

/-- Whether the call `c`, made when the calls before it were `before`, is a
`processLessonPayment` that resolved: a recorded transaction. -/
def Call.recordsTransaction (env : Env) (before : List Call) : Call → Bool
  | Call.processLessonPayment u t k l a =>
    match env.processLessonPayment before u t k l a with
    | Except.ok _ => true
    | Except.error _ => false
  | _ => false

/-- The number of recorded transactions in a call list given newest first. -/
def recordedNewestFirst (env : Env) : List Call → Nat
  | [] => 0
  | c :: older =>
    recordedNewestFirst env older + (if c.recordsTransaction env older.reverse then 1 else 0)

/-- The number of `processLessonPayment` calls of a call list that resolved. -/
def recorded (env : Env) (calls : List Call) : Nat := recordedNewestFirst env calls.reverse

/-- Every `setStep('success')` has a recorded transaction of its own, and the step is
`success` only through `setStep`. -/
def Accounted (env : Env) (w : World) : Prop :=
  w.stepLog.count Step.success ≤ recorded env w.calls ∧
    (w.step = Step.success → Step.success ∈ w.stepLog)

/-! ## `completePayment` between its `await`s -/

/-- The promise an invocation of `completePayment` is suspended on, with the value it
will settle to. -/
inductive Awaiting where
  | processLessonPayment (u : User) (result : Except String Unit)
  | purchaseLesson (result : Except String Bool)

/-- The `catch` block of `completePayment`. -/
def completePaymentFailed (w : World) : World :=
  setStep Step.error (setError "Failed to complete payment processing" w)

/-- The function `completePayment` up to its first `await`: it calls
`processLessonPayment` and is suspended on the answer. -/
def completePaymentBegin (env : Env) (p : Props) (w : World) : World × Option Awaiting :=
  match p.currentUser with
  | none => (completePaymentFailed w, none)
  | some u =>
    (record (Call.processLessonPayment u.id (safeCourse p).teacherId (safeCourse p).key
        (safeLesson p).id (amount p)) w,
      some (Awaiting.processLessonPayment u
        (env.processLessonPayment w.calls u.id (safeCourse p).teacherId (safeCourse p).key
          (safeLesson p).id (amount p))))

/-- The function `completePayment` from one `await` to the next, or to its end. -/
def completePaymentResume (env : Env) (p : Props) (a : Awaiting) (w : World) :
    World × Option Awaiting :=
  match a with
  | Awaiting.processLessonPayment _ (Except.error _) => (completePaymentFailed w, none)
  | Awaiting.processLessonPayment u (Except.ok _) =>
    (record (Call.purchaseLesson u.id (safeCourse p).key (safeLesson p).id (amount p)) w,
      some (Awaiting.purchaseLesson
        (env.purchaseLesson w.calls u.id (safeCourse p).key (safeLesson p).id (amount p))))
  | Awaiting.purchaseLesson (Except.error _) => (completePaymentFailed w, none)
  | Awaiting.purchaseLesson (Except.ok _) =>
    (setTimeout Timer.notifyParent (setStep Step.success w), none)

/-- A suspended invocation of `completePayment` runs to its end. -/
def completePaymentFinish (env : Env) (p : Props) : Option Awaiting → World → World
  | none, w => w
  | some a, w =>
    match completePaymentResume env p a w with
    | (w1, none) => w1
    | (w1, some a1) => (completePaymentResume env p a1 w1).1

/-- Two presses of a confirm button of the same render: the second `completePayment` is
entered while the first is suspended on `processLessonPayment`; then the first runs to its
end, then the second.  The result is the state when the first has finished and the state
when the second has finished. -/
def pressTwice (env : Env) (p : Props) (w : World) : World × World :=
  let first := completePaymentBegin env p w
  let second := completePaymentBegin env p first.1
  let mid := completePaymentFinish env p first.2 second.1
  (mid, completePaymentFinish env p second.2 mid)

/-- The collaborators when `processLessonPayment` rejects once it has been called before,
and everything else succeeds. -/
def paidOnceEnv : Env :=
  { happyEnv with
    processLessonPayment := fun calls _ _ _ _ _ =>
      if calls.any Call.isProcess then Except.error "already paid" else Except.ok () }

/-- The collaborators when flutterwave declines the initiation without a message. -/
def flutterwaveDeclinedEnv : Env :=
  { happyEnv with
    initializeFlutterwavePayment := fun _ _ _ _ =>
      Except.ok { status := "failed", message := "", data := sampleData } }

/-- The gateway id of the rail a call initiates (`none` for the other calls). -/
def Call.rail : Call → Option String
  | Call.initializePaystackPayment _ _ _ => some "paystack"
  | Call.initializeFlutterwavePayment _ _ _ => some "flutterwave"
  | Call.initializeDirectBankTransfer _ _ => some "bank_transfer"
  | Call.generateUSSDCode _ _ => some "ussd"
  | Call.initializeMobileMoneyPayment _ _ _ => some "mobile_money"
  | _ => none

/-- The sample state with `ussd` selected and bank `GTB` chosen. -/
def ussdSelected : World :=
  { initial with
    selectedMethod := "ussd"
    bankDetails := { bankName := "GTB", accountNumber := "", phoneNumber := "" } }

end PaymentModal

/-!
The helpers of `src/App.jsx`.

A JavaScript value is a `JSValue`: plain data (no accessor properties, no proxies), an
object being the list of its own enumerable string-keyed properties in property order.
`console.log` has no effect on the result and is left out.
-/

namespace App

/-- A JavaScript value. -/
inductive JSValue where
  | null
  | undefined
  | boolean (b : Bool)
  | number (n : Int)
  | string (s : String)
  | function
  | array (items : List JSValue)
  | object (props : List (String × JSValue))

/-- The operator `typeof`. -/
def typeOf : JSValue → String
  | JSValue.null => "object"
  | JSValue.undefined => "undefined"
  | JSValue.boolean _ => "boolean"
  | JSValue.number _ => "number"
  | JSValue.string _ => "string"
  | JSValue.function => "function"
  | JSValue.array _ => "object"
  | JSValue.object _ => "object"

/-- Whether a value is truthy (what `!obj` negates). -/
def truthy : JSValue → Bool
  | JSValue.null => false
  | JSValue.undefined => false
  | JSValue.boolean b => b
  | JSValue.number n => n != 0
  | JSValue.string s => s != ""
  | JSValue.function => true
  | JSValue.array _ => true
  | JSValue.object _ => true

/-- The built-in `Object.entries`: a `TypeError` for `null` and `undefined`, the indexed
characters of a string, the indexed items of an array, the properties of an object, and
nothing for the other primitives and for a function. -/
def objectEntries : JSValue → Except String (List (String × JSValue))
  | JSValue.null => Except.error "Cannot convert undefined or null to object"
  | JSValue.undefined => Except.error "Cannot convert undefined or null to object"
  | JSValue.boolean _ => Except.ok []
  | JSValue.number _ => Except.ok []
  | JSValue.string s =>
    Except.ok (s.data.enum.map (fun ic => (toString ic.1, JSValue.string (String.mk [ic.2]))))
  | JSValue.function => Except.ok []
  | JSValue.array items => Except.ok (items.enum.map (fun iv => (toString iv.1, iv.2)))
  | JSValue.object props => Except.ok props

/-- The built-in `Object.keys`. -/
def objectKeys : JSValue → Except String (List String)
  | JSValue.null => Except.error "Cannot convert undefined or null to object"
  | JSValue.undefined => Except.error "Cannot convert undefined or null to object"
  | JSValue.boolean _ => Except.ok []
  | JSValue.number _ => Except.ok []
  | JSValue.string s => Except.ok ((List.range s.data.length).map toString)
  | JSValue.function => Except.ok []
  | JSValue.array items => Except.ok ((List.range items.length).map toString)
  | JSValue.object props => Except.ok (props.map Prod.fst)

/-- The function `safeObjectEntries`: the three guards, then `Object.entries` inside the
`try`, with `[]` from the `catch`. -/
def safeObjectEntries (obj : JSValue) (_location : String) : List (String × JSValue) :=
  match obj with
  | JSValue.null => []
  | JSValue.undefined => []
  | _ =>
    if typeOf obj ≠ "object" then []
    else
      match objectEntries obj with
      | Except.ok entries => entries
      | Except.error _ => []

/-- The function `safeObjectKeys`: the guard `!obj || typeof obj !== 'object'`, then
`Object.keys` inside the `try`, with `[]` from the `catch`. -/
def safeObjectKeys (obj : JSValue) (_location : String) : List String :=
  if truthy obj = false ∨ typeOf obj ≠ "object" then []
  else
    match objectKeys obj with
    | Except.ok keys => keys
    | Except.error _ => []

/-- The method `String.prototype.replace` with a string pattern, on the characters: the
first occurrence of `pat` is replaced by `rep`. -/
def replaceFirst (pat rep : List Char) : List Char → List Char
  | [] => if pat = [] then rep else []
  | c :: cs =>
    if pat.isPrefixOf (c :: cs) then rep ++ (c :: cs).drop pat.length
    else c :: replaceFirst pat rep cs

/-- The call `s.replace(pat, rep)`. -/
def replace (s pat rep : String) : String :=
  String.mk (replaceFirst pat.data rep.data s.data)

/-- The function `getCurrentViewFromHash`, of the value of `location.hash`. -/
def getCurrentViewFromHash (locationHash : String) : String :=
  let replaced := replace locationHash "#" ""
  let hash := if replaced = "" then "/" else replaced
  if hash = "/" then "login" else replace hash "/" ""

/-- The string `s` with the first occurrence of the character `c` removed. -/
def removeFirst (c : Char) (s : String) : String := String.mk (s.data.erase c)

/-- The view of a hash as the specification words it: `s` is the hash with its first `#`
removed, or `/` if that is empty; the view is `login` when `s` is `/`, and otherwise `s`
with its first `/` removed. -/
def viewOfHashSpec (h : String) : String :=
  let s := if removeFirst '#' h = "" then "/" else removeFirst '#' h
  if s = "/" then "login" else removeFirst '/' s

/-! ## `handleLogin` -/

/-- The own enumerable properties of a value, as `Object.entries` lists them (none where
it throws). -/
def entriesOf (v : JSValue) : List (String × JSValue) :=
  match objectEntries v with
  | Except.ok entries => entries
  | Except.error _ => []

/-- Whether the value has an own enumerable property `key`. -/
def hasOwn (v : JSValue) (key : String) : Bool :=
  (entriesOf v).any (fun kv => kv.1 == key)

/-- The property read `v[key]` of an own enumerable property (`undefined` when absent). -/
def getProp (v : JSValue) (key : String) : JSValue :=
  match (entriesOf v).find? (fun kv => kv.1 == key) with
  | some kv => kv.2
  | none => JSValue.undefined

/-- The rest of the destructuring `const { password: _, ...userWithoutPassword } = user`:
a new object with every own enumerable property of `user` except `password`. -/
def userWithoutPassword (user : JSValue) : JSValue :=
  JSValue.object ((entriesOf user).filter (fun kv => kv.1 != "password"))

/-- The comparison `v === s` with a string literal `s`. -/
def strictEqString (v : JSValue) (s : String) : Bool :=
  match v with
  | JSValue.string t => t == s
  | _ => false

/-- What `handleLogin` does to the outside, in order. -/
inductive Effect where
  | setCurrentUserState (value : JSValue)
  | setCurrentUser (value : JSValue)
  | resetInactivityTimer
  | navigate (target : String)
  | setMessage (message : String)

/-- The function `handleLogin`: its return value and its effects in order.
`authenticateUser` is the storage collaborator; `Except.error msg` is a thrown error with
`error.message = msg`.  The state setters, `setCurrentUser`, `resetInactivityTimer` and
`navigate` are taken to return normally. -/
def handleLogin (authenticateUser : String → String → Except String JSValue)
    (email password : String) : Bool × List Effect :=
  match authenticateUser email password with
  | Except.error msg => (false, [Effect.setMessage msg])
  | Except.ok user =>
    if truthy user then
      (true,
        [Effect.setCurrentUserState (userWithoutPassword user),
          Effect.setCurrentUser (userWithoutPassword user),
          Effect.resetInactivityTimer,
          Effect.navigate
            (if strictEqString (getProp user "role") "admin" then "/admin"
             else if strictEqString (getProp user "role") "teacher" then "/teacher"
             else "/dashboard"),
          Effect.setMessage ""])
    else (false, [Effect.setMessage "Invalid email or password"])

/-- The part of the application state that `handleLogin` can touch: the `currentUser`
state cell, the user kept by the storage module, the path and the message. -/
structure AppState where
  currentUser : JSValue
  storedUser : JSValue
  path : String
  message : String

/-- The effect of one `Effect` on the state. -/
def applyEffect (s : AppState) : Effect → AppState
  | Effect.setCurrentUserState v => { s with currentUser := v }
  | Effect.setCurrentUser v => { s with storedUser := v }
  | Effect.resetInactivityTimer => s
  | Effect.navigate target => { s with path := target }
  | Effect.setMessage m => { s with message := m }

/-- The state after a list of effects, oldest first. -/
def applyEffects (s : AppState) (effects : List Effect) : AppState :=
  effects.foldl applyEffect s

/-- The values passed to `setCurrentUserState` and to `setCurrentUser`. -/
def userValues : List Effect → List JSValue
  | [] => []
  | Effect.setCurrentUserState v :: rest => v :: userValues rest
  | Effect.setCurrentUser v :: rest => v :: userValues rest
  | _ :: rest => userValues rest

/-! ## The routes -/

/-- What a route renders: a page, named by its main component, or a `Navigate`. -/
inductive Element where
  | page (component : String)
  | navigate (target : String)
  deriving DecidableEq

/-- The read `currentUser?.role`. -/
def optionalRole (currentUser : JSValue) : JSValue :=
  match currentUser with
  | JSValue.null => JSValue.undefined
  | JSValue.undefined => JSValue.undefined
  | _ => getProp currentUser "role"

/-- The `element` of the `Route` with the given `path`, for the value of the
`currentUser` state cell; a path without a `Route` of its own falls to `path="*"`. -/
def routeElement (path : String) (currentUser : JSValue) : Element :=
  if path = "/" ∨ path = "/login" then
    if truthy currentUser then Element.navigate "/dashboard" else Element.page "LoginForm"
  else if path = "/register" then
    if truthy currentUser then Element.navigate "/dashboard" else Element.page "RegisterForm"
  else if path = "/teacher-register" then
    if truthy currentUser then Element.navigate "/dashboard"
    else Element.page "TeacherRegisterForm"
  else if path = "/email-confirmation" then
    if truthy currentUser then Element.navigate "/dashboard"
    else Element.page "EmailConfirmation"
  else if path = "/dashboard" then
    if truthy currentUser then Element.page "Dashboard" else Element.navigate "/login"
  else if path = "/courses" then
    if truthy currentUser then Element.page "CourseCatalog" else Element.navigate "/login"
  else if path = "/profile" then
    if truthy currentUser then Element.page "StudentProfile" else Element.navigate "/login"
  else if path = "/discussion" then
    if truthy currentUser then Element.page "DiscussionForum" else Element.navigate "/login"
  else if path = "/about" then Element.page "About"
  else if path = "/faqs" then Element.page "FAQs"
  else if path = "/contact" then Element.page "Contact"
  else if path = "/blog" then Element.page "Blog"
  else if path = "/resources" then Element.page "Resources"
  else if path = "/careers" then Element.page "Careers"
  else if path = "/support" then Element.page "Support"
  else if path = "/admin" then
    if strictEqString (optionalRole currentUser) "admin" then Element.page "AdminDashboard"
    else Element.navigate "/login"
  else if path = "/admin-courses" then
    if strictEqString (optionalRole currentUser) "admin" then
      Element.page "AdminCourseManagement"
    else Element.navigate "/login"
  else if path = "/teacher" then
    if strictEqString (optionalRole currentUser) "teacher" then
      Element.page "TeacherDashboard"
    else Element.navigate "/login"
  else Element.navigate "/"

/-! ## Sample inputs -/

/-- A stored user record with a password. -/
def adaRecord : JSValue :=
  JSValue.object
    [("id", JSValue.string "u1"), ("email", JSValue.string "ada@example.com"),
      ("password", JSValue.string "secret"), ("role", JSValue.string "teacher")]

/-- A storage in which only `ada@example.com` with `secret` authenticates; an empty
email makes it throw. -/
def sampleAuthenticate (email password : String) : Except String JSValue :=
  if email = "" then Except.error "Email is required"
  else if email = "ada@example.com" ∧ password = "secret" then Except.ok adaRecord
  else Except.ok JSValue.null

end App

namespace PaymentModal

/-! ## Theorems -/

theorem untouched_stepEvent (env : Env) (p : Props) (e : Event) (w : World)
    (hw : Untouched w) (he : e ≠ Event.clickPay) : Untouched (stepEvent env p e w) := by
  obtain ⟨h1, h2, h3, h4, h5, h6, h7⟩ := hw
  cases e <;> simp only [stepEvent, userEvent] <;> (repeat' split) <;>
    simp_all [Untouched, attestationStep]

theorem untouched_run (env : Env) (p : Props) (es : List Event) :
    ∀ w : World, Untouched w → (∀ e ∈ es, e ≠ Event.clickPay) → Untouched (run env p es w) := by
  induction es with
  | nil => intro w hw _; simpa [run] using hw
  | cons e es ih =>
    intro w hw hes
    have h1 : Untouched (stepEvent env p e w) :=
      untouched_stepEvent env p e w hw (hes e (List.mem_cons_self _ _))
    have h2 := ih (stepEvent env p e w) h1 (fun x hx => hes x (List.mem_cons_of_mem _ hx))
    simpa [run] using h2

/-- C2: the modal starts in the selecting state.  The first render has step `select`,
`loading` false, no `paymentData`, an empty `error`; and whatever the user does before
the first press of the pay button (the only caller of `handlePayment`), the step is still
`select`, never a processing or pending step, and no collaborator has been called. -/
theorem C2_starts_in_select (env : Env) (p : Props) :
    initial.step = Step.select ∧ initial.loading = false ∧ initial.paymentData = none ∧
      initial.error = "" ∧ initial.calls = [] ∧
      ∀ es : List Event, (∀ e ∈ es, e ≠ Event.clickPay) →
        (run env p es initial).step = Step.select ∧
        (run env p es initial).loading = false ∧
        (run env p es initial).paymentData = none ∧
        (run env p es initial).error = "" ∧
        (run env p es initial).calls = [] ∧
        (run env p es initial).stepLog = [] := by
  refine ⟨rfl, rfl, rfl, rfl, rfl, ?_⟩
  intro es hes
  have h0 : Untouched initial := ⟨rfl, rfl, rfl, rfl, rfl, rfl, rfl⟩
  obtain ⟨h1, h2, h3, h4, h5, _, h7⟩ := untouched_run env p es initial h0 hes
  exact ⟨h1, h2, h3, h4, h5, h7⟩

/-- C2 at a sample session: the user picks a method and types a bank name, then presses
buttons that are not rendered; the modal is still selecting and has called nobody. -/
theorem C2_starts_in_select_witness :
    (run happyEnv sampleProps
        [Event.selectMethod "ussd", Event.setBankName "GTB", Event.clickBack, Event.fire 0]
        initial).step = Step.select ∧
      (run happyEnv sampleProps
        [Event.selectMethod "ussd", Event.setBankName "GTB", Event.clickBack, Event.fire 0]
        initial).calls = [] :=
  have h := (C2_starts_in_select happyEnv sampleProps).2.2.2.2.2
    [Event.selectMethod "ussd", Event.setBankName "GTB", Event.clickBack, Event.fire 0]
    (by decide)
  ⟨h.1, h.2.2.2.2.1⟩

/-- C3: with `mobile_money` selected, a logged-in user and an empty phone number (whatever
the provider field holds), `handlePayment` ends with the error
`'Please enter your phone number'`, does not call `setStep` (the step stays what it was,
`select` when the pay button is rendered), makes no collaborator call and schedules
nothing, and ends with `loading` false. -/
theorem C3_mobile_money_needs_phone (env : Env) (p : Props) (u : User) (w : World)
    (hu : p.currentUser = some u) (hm : w.selectedMethod = "mobile_money")
    (hp : w.bankDetails.phoneNumber = "") :
    (handlePayment env p w).error = "Please enter your phone number" ∧
      (handlePayment env p w).step = w.step ∧
      (w.step = Step.select → (handlePayment env p w).step = Step.select) ∧
      (handlePayment env p w).stepLog = w.stepLog ∧
      (handlePayment env p w).calls = w.calls ∧
      (handlePayment env p w).timers = w.timers ∧
      (handlePayment env p w).loading = false := by
  simp [handlePayment, hu, dispatch, handleMobileMoneyPayment, setError, setLoading, hm, hp]

/-- C3 at a sample state: `mobile_money` with provider `OPay` and no phone number. -/
theorem C3_mobile_money_needs_phone_witness :
    (handlePayment happyEnv sampleProps
        { initial with selectedMethod := "mobile_money",
                       bankDetails := { bankName := "OPay", accountNumber := "",
                                        phoneNumber := "" } }).error
        = "Please enter your phone number" ∧
      (handlePayment happyEnv sampleProps
        { initial with selectedMethod := "mobile_money",
                       bankDetails := { bankName := "OPay", accountNumber := "",
                                        phoneNumber := "" } }).step = Step.select :=
  have h := C3_mobile_money_needs_phone happyEnv sampleProps u1
    { initial with selectedMethod := "mobile_money",
                   bankDetails := { bankName := "OPay", accountNumber := "",
                                    phoneNumber := "" } } rfl rfl rfl
  ⟨h.1, h.2.2.1 rfl⟩

/-- C4: when `getCurrentUser()` is null, `handlePayment` only sets the error
`'Please log in to make a payment'`: whatever method is selected, the step, `loading`,
`paymentData` and every other state cell are unchanged, no collaborator is called and no
callback is scheduled. -/
theorem C4_no_user_rejected (env : Env) (p : Props) (w : World)
    (hu : p.currentUser = none) :
    handlePayment env p w = { w with error := "Please log in to make a payment" } ∧
      (handlePayment env p w).error = "Please log in to make a payment" ∧
      (handlePayment env p w).step = w.step ∧
      (handlePayment env p w).loading = w.loading ∧
      (handlePayment env p w).paymentData = w.paymentData ∧
      (handlePayment env p w).calls = w.calls ∧
      (handlePayment env p w).timers = w.timers := by
  simp [handlePayment, hu, setError]

/-- C4 at a sample state: nobody is logged in and the default method is selected. -/
theorem C4_no_user_rejected_witness :
    (handlePayment happyEnv anonymousProps initial).error = "Please log in to make a payment" ∧
      (handlePayment happyEnv anonymousProps initial).calls = [] :=
  have h := C4_no_user_rejected happyEnv anonymousProps initial rfl
  ⟨h.2.1, h.2.2.2.2.2.1⟩

/-- What a call added by a gateway handler looks like. -/
theorem handlePaystackPayment_calls (env : Env) (p : Props) (u : User) (w : World) :
    (handlePaystackPayment env p u w).world.calls = w.calls ++
      [Call.initializePaystackPayment u.email (amount p)
        { lesson_id := (safeLesson p).id, lesson_title := lessonTitle p,
          course_key := (safeCourse p).key, student_id := some u.id,
          student_name := some u.name }] := by
  unfold handlePaystackPayment
  simp only []
  split
  · simp [Outcome.world, record, setStep]
  · split <;> simp [Outcome.world, record, setStep, setTimeout, setPaymentData]

theorem handleFlutterwavePayment_calls (env : Env) (p : Props) (u : User) (w : World) :
    (handleFlutterwavePayment env p u w).world.calls = w.calls ++
      [Call.initializeFlutterwavePayment u.email (amount p)
        { lesson_id := (safeLesson p).id, lesson_title := lessonTitle p,
          course_key := (safeCourse p).key, student_id := none, student_name := none }] := by
  unfold handleFlutterwavePayment
  simp only []
  split
  · simp [Outcome.world, record, setStep]
  · split <;> simp [Outcome.world, record, setStep, setTimeout, setPaymentData]

theorem handleBankTransfer_calls (env : Env) (p : Props) (w : World) :
    (handleBankTransfer env p w).world.calls =
      if w.bankDetails.bankName = "" then w.calls
      else w.calls ++ [Call.initializeDirectBankTransfer (amount p) w.bankDetails] := by
  unfold handleBankTransfer
  split
  · simp [Outcome.world, setError]
  · simp only []
    split
    · simp [Outcome.world, record, setStep]
    · split <;> simp [Outcome.world, record, setStep, setPaymentData]

theorem handleUSSDPayment_calls (env : Env) (p : Props) (w : World) :
    (handleUSSDPayment env p w).world.calls =
      if w.bankDetails.bankName = "" then w.calls
      else w.calls ++ [Call.generateUSSDCode (amount p) w.bankDetails.bankName] := by
  unfold handleUSSDPayment
  split
  · simp [Outcome.world, setError]
  · simp only []
    split
    · simp [Outcome.world, record]
    · split <;> simp [Outcome.world, record, setStep, setPaymentData]

theorem handleMobileMoneyPayment_calls (env : Env) (p : Props) (w : World) :
    (handleMobileMoneyPayment env p w).world.calls =
      if w.bankDetails.phoneNumber = "" ∨ w.bankDetails.bankName = "" then w.calls
      else w.calls ++ [Call.initializeMobileMoneyPayment w.bankDetails.phoneNumber (amount p)
        w.bankDetails.bankName] := by
  unfold handleMobileMoneyPayment
  split
  · simp [Outcome.world, setError, *]
  · split
    · simp [Outcome.world, setError, *]
    · simp only []
      split
      · simp [Outcome.world, record, setStep, *]
      · split <;> simp [Outcome.world, record, setStep, setPaymentData, *]

theorem dispatch_calls (env : Env) (p : Props) (u : User) (w : World) (c : Call)
    (hc : c ∈ (dispatch env p u w).world.calls) :
    c ∈ w.calls ∨ (c.isInitiate = true ∧ c.amount? = some (amount p)) := by
  unfold dispatch at hc
  split at hc
  · rw [handlePaystackPayment_calls] at hc
    rcases List.mem_append.1 hc with h | h
    · exact Or.inl h
    · right; simp at h; subst h; simp [Call.isInitiate, Call.amount?]
  split at hc
  · rw [handleFlutterwavePayment_calls] at hc
    rcases List.mem_append.1 hc with h | h
    · exact Or.inl h
    · right; simp at h; subst h; simp [Call.isInitiate, Call.amount?]
  split at hc
  · rw [handleBankTransfer_calls] at hc
    split at hc
    · exact Or.inl hc
    · rcases List.mem_append.1 hc with h | h
      · exact Or.inl h
      · right; simp at h; subst h; simp [Call.isInitiate, Call.amount?]
  split at hc
  · rw [handleUSSDPayment_calls] at hc
    split at hc
    · exact Or.inl hc
    · rcases List.mem_append.1 hc with h | h
      · exact Or.inl h
      · right; simp at h; subst h; simp [Call.isInitiate, Call.amount?]
  split at hc
  · rw [handleMobileMoneyPayment_calls] at hc
    split at hc
    · exact Or.inl hc
    · rcases List.mem_append.1 hc with h | h
      · exact Or.inl h
      · right; simp at h; subst h; simp [Call.isInitiate, Call.amount?]
  · exact Or.inl hc

theorem handlePayment_calls_eq (env : Env) (p : Props) (u : User) (w : World)
    (hu : p.currentUser = some u) :
    (handlePayment env p w).calls =
      (dispatch env p u (setError "" (setLoading true w))).world.calls := by
  unfold handlePayment
  rw [hu]
  simp only []
  cases h : dispatch env p u (setError "" (setLoading true w)) <;>
    simp [Outcome.world, setLoading, setStep, setError]

theorem handlePayment_calls (env : Env) (p : Props) (w : World) (c : Call)
    (hc : c ∈ (handlePayment env p w).calls) :
    c ∈ w.calls ∨ (c.isInitiate = true ∧ c.amount? = some (amount p)) := by
  cases hu : p.currentUser with
  | none =>
    left
    simpa [handlePayment, hu, setError] using hc
  | some u =>
    rw [handlePayment_calls_eq env p u w hu] at hc
    simpa [setError, setLoading] using dispatch_calls env p u _ c hc

/-- The calls of one `completePayment`. -/
theorem completePayment_calls_eq (env : Env) (p : Props) (r g : String) (w : World) :
    (completePayment env p r g w).calls =
      match p.currentUser with
      | none => w.calls
      | some u =>
        match env.processLessonPayment w.calls u.id (safeCourse p).teacherId (safeCourse p).key
            (safeLesson p).id (amount p) with
        | Except.error _ =>
          w.calls ++ [Call.processLessonPayment u.id (safeCourse p).teacherId (safeCourse p).key
            (safeLesson p).id (amount p)]
        | Except.ok _ =>
          w.calls ++ [Call.processLessonPayment u.id (safeCourse p).teacherId (safeCourse p).key
            (safeLesson p).id (amount p),
            Call.purchaseLesson u.id (safeCourse p).key (safeLesson p).id (amount p)] := by
  unfold completePayment
  simp only []
  split
  · simp [setStep, setError]
  · split
    · simp [setStep, setError, record]
    · split <;> simp [setStep, setError, record, setTimeout]

theorem completePayment_calls (env : Env) (p : Props) (r g : String) (w : World) (c : Call)
    (hc : c ∈ (completePayment env p r g w).calls) :
    c ∈ w.calls ∨ (c.isFulfilment = true ∧ c.amount? = some (amount p)) := by
  rw [completePayment_calls_eq] at hc
  split at hc
  · exact Or.inl hc
  · split at hc
    · rcases List.mem_append.1 hc with h | h
      · exact Or.inl h
      · right; simp at h; subst h; simp [Call.isFulfilment, Call.amount?]
    · rcases List.mem_append.1 hc with h | h
      · exact Or.inl h
      · right; simp at h
        rcases h with h | h <;> subst h <;> simp [Call.isFulfilment, Call.amount?]

/-- C5, as stated, fails: for the lesson priced `-5` the paystack gateway is initiated
with the amount `-5`, and `completePayment` hands `-5` to both storage functions. -/
theorem C5_negative_price_counterexample :
    negativeLesson.price = some (-5) ∧
      (handlePayment happyEnv negativeProps initial).calls =
        [Call.initializePaystackPayment "u1@example.com" (-5)
          { lesson_id := some "lessonA", lesson_title := "Lesson A",
            course_key := some "courseA", student_id := some "u1",
            student_name := some "Buyer One" }] ∧
      (completePayment happyEnv negativeProps "ref_1" "paystack" initial).calls =
        [Call.processLessonPayment "u1" (some "t1") (some "courseA") (some "lessonA") (-5),
          Call.purchaseLesson "u1" (some "courseA") (some "lessonA") (-5)] := by
  decide

/-- C5, amended: the price is not validated.  Every call that `handlePayment` adds is a
gateway initiation carrying the amount `safeLesson.price || 0`, every call that
`completePayment` adds is a fulfilment call carrying that same amount, and that amount is
the lesson's price itself whenever the lesson has one (a negative price included) and `0`
when the price is missing. -/
theorem C5_amount_is_price (env : Env) (p : Props) (w : World) (r g : String) :
    (∀ c ∈ (handlePayment env p w).calls,
        c ∈ w.calls ∨ (c.isInitiate = true ∧ c.amount? = some (amount p))) ∧
      (∀ c ∈ (completePayment env p r g w).calls,
        c ∈ w.calls ∨ (c.isFulfilment = true ∧ c.amount? = some (amount p))) ∧
      (∀ l n, p.lesson = some l → l.price = some n → amount p = n) ∧
      ((safeLesson p).price = none → amount p = 0) := by
  refine ⟨handlePayment_calls env p w, completePayment_calls env p r g w, ?_, ?_⟩
  · intro l n hl hn
    simp only [amount, safeLesson, hl, hn]
    split <;> simp_all
  · intro h
    simp [amount, h]

/-- C5 amended, at the lesson priced `-5`: the amount handed on is `-5`. -/
theorem C5_amount_is_price_witness : amount negativeProps = -5 :=
  (C5_amount_is_price happyEnv negativeProps initial "ref_1" "paystack").2.2.1
    negativeLesson (-5) rfl rfl

theorem verifyPaystackCallback_negative (env : Env) (p : Props) (ref : String) (w : World)
    (v : Verification) (hv : env.verifyPaystackPayment w.calls ref = Except.ok v)
    (hneg : ¬ (v.status = true ∧ v.data.status = "success")) :
    verifyPaystackCallback env p ref w =
      setStep Step.error (setError "Payment verification failed"
        (record (Call.verifyPaystackPayment ref) w)) := by
  unfold verifyPaystackCallback
  simp only [hv]
  rw [if_neg hneg]

theorem verifyPaystackCallback_positive (env : Env) (p : Props) (ref : String) (w : World)
    (v : Verification) (hv : env.verifyPaystackPayment w.calls ref = Except.ok v)
    (hpos : v.status = true ∧ v.data.status = "success") :
    verifyPaystackCallback env p ref w =
      completePayment env p v.data.reference "paystack"
        (record (Call.verifyPaystackPayment ref) w) := by
  unfold verifyPaystackCallback
  simp only [hv]
  rw [if_pos hpos]

theorem eraseIdx_length_append (l : List Timer) (t : Timer) :
    (l ++ [t]).eraseIdx l.length = l := by
  induction l with
  | nil => rfl
  | cons a l ih => simp [List.eraseIdx, ih]

/-- A paystack attempt as the modal runs it: the press of the pay button, then the
callback it scheduled.  The second event is `verifyPaystackCallback` on the state that
`handlePayment` left. -/
theorem paystack_attempt (env : Env) (p : Props) (u : User) (L : Lesson) (w : World)
    (r : PaystackInit) (hu : p.currentUser = some u) (hl : p.lesson = some L)
    (hs : w.step = Step.select) (hload : w.loading = false)
    (hm : w.selectedMethod = "paystack")
    (hinit : env.initializePaystackPayment w.calls u.email (amount p)
      { lesson_id := (safeLesson p).id, lesson_title := lessonTitle p,
        course_key := (safeCourse p).key, student_id := some u.id,
        student_name := some u.name } = Except.ok r)
    (hr : r.status = true) :
    stepEvent env p (Event.fire w.timers.length) (stepEvent env p Event.clickPay w) =
      verifyPaystackCallback env p r.data.reference
        { w with
          step := Step.processing
          stepLog := w.stepLog ++ [Step.processing]
          error := ""
          paymentData := some r.data
          calls := w.calls ++ [Call.initializePaystackPayment u.email (amount p)
            { lesson_id := (safeLesson p).id, lesson_title := lessonTitle p,
              course_key := (safeCourse p).key, student_id := some u.id,
              student_name := some u.name }] } := by
  have hln : p.lesson.isNone = false := by simp [hl]
  have h1 : stepEvent env p Event.clickPay w =
      { w with
        step := Step.processing
        stepLog := w.stepLog ++ [Step.processing]
        error := ""
        paymentData := some r.data
        timers := w.timers ++ [Timer.verifyPaystack r.data.reference]
        calls := w.calls ++ [Call.initializePaystackPayment u.email (amount p)
          { lesson_id := (safeLesson p).id, lesson_title := lessonTitle p,
            course_key := (safeCourse p).key, student_id := some u.id,
            student_name := some u.name }] } := by
    simp [stepEvent, userEvent, hln, hs, hload, handlePayment, hu, dispatch, hm,
      handlePaystackPayment, setError, setLoading, setStep, record, setTimeout,
      setPaymentData, hinit, hr]
  rw [h1]
  simp [stepEvent, runTimer, eraseIdx_length_append]

/-- C6: on the paystack rail fulfilment happens exactly when the verification reports
success.  An attempt whose initiation succeeds schedules one verification callback and
calls nobody else.  When that callback runs and the verification resolves to a result
that is not a success (`status` falsy, or `data.status` other than `'success'`), the step
becomes `error` with `'Payment verification failed'`, the only call made is the one
`verifyPaystackPayment`, `completePayment` is not entered (no fulfilment call, `setStep`
is called with `error` only, `onSuccess` is not scheduled) and no further verification is
scheduled.  When the result is a success, `completePayment` is entered, so
`processLessonPayment` is called for the logged-in buyer.  The last two parts state this
of the session itself: the press of the pay button followed by the scheduled callback
running. -/
theorem C6_paystack_fulfilment_iff_verified (env : Env) (p : Props) :
    (∀ (u : User) (w : World) (r : PaystackInit),
        p.currentUser = some u → w.selectedMethod = "paystack" →
        env.initializePaystackPayment w.calls u.email (amount p)
          { lesson_id := (safeLesson p).id, lesson_title := lessonTitle p,
            course_key := (safeCourse p).key, student_id := some u.id,
            student_name := some u.name } = Except.ok r →
        r.status = true →
        (handlePayment env p w).timers = w.timers ++ [Timer.verifyPaystack r.data.reference] ∧
          (handlePayment env p w).calls = w.calls ++
            [Call.initializePaystackPayment u.email (amount p)
              { lesson_id := (safeLesson p).id, lesson_title := lessonTitle p,
                course_key := (safeCourse p).key, student_id := some u.id,
                student_name := some u.name }] ∧
          (handlePayment env p w).step = Step.processing) ∧
      (∀ (ref : String) (w : World) (v : Verification),
        env.verifyPaystackPayment w.calls ref = Except.ok v →
        ¬ (v.status = true ∧ v.data.status = "success") →
        (verifyPaystackCallback env p ref w).step = Step.error ∧
          (verifyPaystackCallback env p ref w).error = "Payment verification failed" ∧
          (verifyPaystackCallback env p ref w).calls =
            w.calls ++ [Call.verifyPaystackPayment ref] ∧
          (verifyPaystackCallback env p ref w).stepLog = w.stepLog ++ [Step.error] ∧
          (verifyPaystackCallback env p ref w).timers = w.timers ∧
          (verifyPaystackCallback env p ref w).onSuccessCalls = w.onSuccessCalls) ∧
      (∀ (u : User) (ref : String) (w : World) (v : Verification),
        p.currentUser = some u →
        env.verifyPaystackPayment w.calls ref = Except.ok v →
        v.status = true ∧ v.data.status = "success" →
        verifyPaystackCallback env p ref w =
            completePayment env p v.data.reference "paystack"
              (record (Call.verifyPaystackPayment ref) w) ∧
          Call.processLessonPayment u.id (safeCourse p).teacherId (safeCourse p).key
            (safeLesson p).id (amount p) ∈ (verifyPaystackCallback env p ref w).calls) ∧
      (∀ (u : User) (L : Lesson) (w : World) (r : PaystackInit) (v : Verification),
        p.currentUser = some u → p.lesson = some L →
        w.step = Step.select → w.loading = false → w.selectedMethod = "paystack" →
        env.initializePaystackPayment w.calls u.email (amount p)
          { lesson_id := (safeLesson p).id, lesson_title := lessonTitle p,
            course_key := (safeCourse p).key, student_id := some u.id,
            student_name := some u.name } = Except.ok r →
        r.status = true →
        env.verifyPaystackPayment
          (w.calls ++ [Call.initializePaystackPayment u.email (amount p)
            { lesson_id := (safeLesson p).id, lesson_title := lessonTitle p,
              course_key := (safeCourse p).key, student_id := some u.id,
              student_name := some u.name }]) r.data.reference = Except.ok v →
        ¬ (v.status = true ∧ v.data.status = "success") →
        (run env p [Event.clickPay, Event.fire w.timers.length] w).step = Step.error ∧
          (run env p [Event.clickPay, Event.fire w.timers.length] w).error =
            "Payment verification failed" ∧
          (run env p [Event.clickPay, Event.fire w.timers.length] w).calls =
            w.calls ++
              [Call.initializePaystackPayment u.email (amount p)
                { lesson_id := (safeLesson p).id, lesson_title := lessonTitle p,
                  course_key := (safeCourse p).key, student_id := some u.id,
                  student_name := some u.name },
               Call.verifyPaystackPayment r.data.reference] ∧
          (run env p [Event.clickPay, Event.fire w.timers.length] w).stepLog =
            w.stepLog ++ [Step.processing, Step.error] ∧
          (run env p [Event.clickPay, Event.fire w.timers.length] w).timers = w.timers ∧
          (run env p [Event.clickPay, Event.fire w.timers.length] w).onSuccessCalls =
            w.onSuccessCalls) ∧
      (∀ (u : User) (L : Lesson) (w : World) (r : PaystackInit) (v : Verification),
        p.currentUser = some u → p.lesson = some L →
        w.step = Step.select → w.loading = false → w.selectedMethod = "paystack" →
        env.initializePaystackPayment w.calls u.email (amount p)
          { lesson_id := (safeLesson p).id, lesson_title := lessonTitle p,
            course_key := (safeCourse p).key, student_id := some u.id,
            student_name := some u.name } = Except.ok r →
        r.status = true →
        env.verifyPaystackPayment
          (w.calls ++ [Call.initializePaystackPayment u.email (amount p)
            { lesson_id := (safeLesson p).id, lesson_title := lessonTitle p,
              course_key := (safeCourse p).key, student_id := some u.id,
              student_name := some u.name }]) r.data.reference = Except.ok v →
        v.status = true ∧ v.data.status = "success" →
        (run env p [Event.clickPay, Event.fire w.timers.length] w).calls.take
            (w.calls.length + 3) =
          w.calls ++
            [Call.initializePaystackPayment u.email (amount p)
              { lesson_id := (safeLesson p).id, lesson_title := lessonTitle p,
                course_key := (safeCourse p).key, student_id := some u.id,
                student_name := some u.name },
             Call.verifyPaystackPayment r.data.reference,
             Call.processLessonPayment u.id (safeCourse p).teacherId (safeCourse p).key
              (safeLesson p).id (amount p)]) := by
  have hrun : ∀ w : World, run env p [Event.clickPay, Event.fire w.timers.length] w =
      stepEvent env p (Event.fire w.timers.length) (stepEvent env p Event.clickPay w) := by
    intro w; simp [run]
  refine ⟨?_, ?_, ?_, ?_, ?_⟩
  · intro u w r hu hm hinit hr
    simp [handlePayment, hu, dispatch, hm, handlePaystackPayment, setError, setLoading,
      setStep, record, setTimeout, setPaymentData, hinit, hr]
  · intro ref w v hv hneg
    rw [verifyPaystackCallback_negative env p ref w v hv hneg]
    simp [setStep, setError, record]
  · intro u ref w v hu hv hpos
    rw [verifyPaystackCallback_positive env p ref w v hv hpos]
    refine ⟨rfl, ?_⟩
    rw [completePayment_calls_eq, hu]
    simp only []
    split <;> simp [record]
  · intro u L w r v hu hl hs hload hm hinit hr hv hneg
    rw [hrun, paystack_attempt env p u L w r hu hl hs hload hm hinit hr,
      verifyPaystackCallback_negative env p _ _ v hv hneg]
    simp [setStep, setError, record]
  · intro u L w r v hu hl hs hload hm hinit hr hv hpos
    rw [hrun, paystack_attempt env p u L w r hu hl hs hload hm hinit hr,
      verifyPaystackCallback_positive env p _ _ v hv hpos, completePayment_calls_eq, hu]
    simp only []
    split <;> simp [record, List.take_append_eq_append_take]

/-- C6 at the sample session: pay with paystack, the verification answers `pending`;
after the scheduled callback has run the step is `error` and the calls are the initiation
and one verification. -/
theorem C6_paystack_fulfilment_iff_verified_witness :
    (run pendingEnv sampleProps [Event.clickPay, Event.fire 0] initial).step = Step.error ∧
      (run pendingEnv sampleProps [Event.clickPay, Event.fire 0] initial).error =
        "Payment verification failed" ∧
      (run pendingEnv sampleProps [Event.clickPay, Event.fire 0] initial).calls =
        [Call.initializePaystackPayment "u1@example.com" 500000
          { lesson_id := some "lessonA", lesson_title := "Lesson A",
            course_key := some "courseA", student_id := some "u1",
            student_name := some "Buyer One" },
         Call.verifyPaystackPayment "ref_1"] ∧
      (run pendingEnv sampleProps [Event.clickPay, Event.fire 0] initial).timers = [] :=
  have h := (C6_paystack_fulfilment_iff_verified pendingEnv sampleProps).2.2.2.1 u1 lessonA
    initial { status := true, message := "", data := sampleData }
    { status := true, data := { status := "pending", reference := "ref_1" } }
    rfl rfl rfl rfl rfl rfl rfl rfl (by decide)
  ⟨h.1, h.2.1, h.2.2.1, h.2.2.2.2.1⟩

/-- C7, as stated, fails: a verification that answers `pending` and one that answers
`failed` leave the modal in the same step with the same error text. -/
theorem C7_pending_and_rejected_counterexample :
    (run pendingEnv sampleProps [Event.clickPay, Event.fire 0] initial).step = Step.error ∧
      (run rejectedEnv sampleProps [Event.clickPay, Event.fire 0] initial).step = Step.error ∧
      (run pendingEnv sampleProps [Event.clickPay, Event.fire 0] initial).error =
        "Payment verification failed" ∧
      (run rejectedEnv sampleProps [Event.clickPay, Event.fire 0] initial).error =
        "Payment verification failed" := by
  decide

/-- C7, amended: the modal reports every verification that is not a success in the same
way.  Whatever two paystack verification results are not successes (`status` falsy, or
`data.status` other than `'success'`, be it `'pending'` or a rejection), both leave the
step `error` and the same error text `'Payment verification failed'`. -/
theorem C7_one_failure_reason (env₁ env₂ : Env) (p₁ p₂ : Props) (ref₁ ref₂ : String)
    (w₁ w₂ : World) (v₁ v₂ : Verification)
    (h₁ : env₁.verifyPaystackPayment w₁.calls ref₁ = Except.ok v₁)
    (h₂ : env₂.verifyPaystackPayment w₂.calls ref₂ = Except.ok v₂)
    (n₁ : ¬ (v₁.status = true ∧ v₁.data.status = "success"))
    (n₂ : ¬ (v₂.status = true ∧ v₂.data.status = "success")) :
    (verifyPaystackCallback env₁ p₁ ref₁ w₁).step =
        (verifyPaystackCallback env₂ p₂ ref₂ w₂).step ∧
      (verifyPaystackCallback env₁ p₁ ref₁ w₁).error =
        (verifyPaystackCallback env₂ p₂ ref₂ w₂).error ∧
      (verifyPaystackCallback env₁ p₁ ref₁ w₁).step = Step.error ∧
      (verifyPaystackCallback env₁ p₁ ref₁ w₁).error = "Payment verification failed" := by
  rw [verifyPaystackCallback_negative env₁ p₁ ref₁ w₁ v₁ h₁ n₁,
    verifyPaystackCallback_negative env₂ p₂ ref₂ w₂ v₂ h₂ n₂]
  simp [setStep, setError, record]

/-- C7 amended, at a pending and a rejected verification of the same reference. -/
theorem C7_one_failure_reason_witness :
    (verifyPaystackCallback pendingEnv sampleProps "ref_1" initial).step =
        (verifyPaystackCallback rejectedEnv sampleProps "ref_1" initial).step ∧
      (verifyPaystackCallback pendingEnv sampleProps "ref_1" initial).error =
        (verifyPaystackCallback rejectedEnv sampleProps "ref_1" initial).error :=
  have h := C7_one_failure_reason pendingEnv rejectedEnv sampleProps sampleProps "ref_1" "ref_1"
    initial initial
    { status := true, data := { status := "pending", reference := "ref_1" } }
    { status := true, data := { status := "failed", reference := "ref_1" } }
    rfl rfl (by decide) (by decide)
  ⟨h.1, h.2.1⟩

/-- C1, as stated, fails.  Two invocations of `completePayment` from the session waiting
on the USSD instructions (two presses of the confirm button handled before the next
render) call `processLessonPayment` twice and `purchaseLesson` twice; and in a run of the
modal where the first grant fails and the buyer retries, the second commit for the same
buyer and lesson calls `processLessonPayment` a second time. -/
theorem C1_double_commit_counterexample :
    ussdWaiting.step = Step.ussd_instructions ∧
      (completePayment happyEnv sampleProps "ussd_1700000000001" "ussd"
        (completePayment happyEnv sampleProps "ussd_1700000000000" "ussd" ussdWaiting)).calls =
        [Call.generateUSSDCode 500000 "GTB",
          Call.processLessonPayment "u1" (some "t1") (some "courseA") (some "lessonA") 500000,
          Call.purchaseLesson "u1" (some "courseA") (some "lessonA") 500000,
          Call.processLessonPayment "u1" (some "t1") (some "courseA") (some "lessonA") 500000,
          Call.purchaseLesson "u1" (some "courseA") (some "lessonA") 500000] ∧
      (run grantFailsOnceEnv sampleProps
        [Event.selectMethod "ussd", Event.setBankName "GTB", Event.clickPay,
          Event.clickConfirmUssd, Event.clickRetry, Event.clickPay, Event.clickConfirmUssd]
        initial).calls =
        [Call.generateUSSDCode 500000 "GTB",
          Call.processLessonPayment "u1" (some "t1") (some "courseA") (some "lessonA") 500000,
          Call.purchaseLesson "u1" (some "courseA") (some "lessonA") 500000,
          Call.generateUSSDCode 500000 "GTB",
          Call.processLessonPayment "u1" (some "t1") (some "courseA") (some "lessonA") 500000,
          Call.purchaseLesson "u1" (some "courseA") (some "lessonA") 500000] := by
  decide

/-- C1, amended: `completePayment` keeps no trace of earlier commits.  For a logged-in
buyer every invocation calls `processLessonPayment` once more, and `purchaseLesson` once
more when that call resolves (and not at all when it rejects); two invocations for the
same buyer and lesson call `processLessonPayment` twice. -/
theorem C1_every_commit_calls_again (env : Env) (p : Props) (u : User) (r g r' g' : String)
    (w : World) (hu : p.currentUser = some u) :
    (completePayment env p r g w).calls.countP Call.isProcess =
        w.calls.countP Call.isProcess + 1 ∧
      (∀ x, env.processLessonPayment w.calls u.id (safeCourse p).teacherId (safeCourse p).key
          (safeLesson p).id (amount p) = Except.ok x →
        (completePayment env p r g w).calls.countP Call.isPurchase =
          w.calls.countP Call.isPurchase + 1) ∧
      (∀ m, env.processLessonPayment w.calls u.id (safeCourse p).teacherId (safeCourse p).key
          (safeLesson p).id (amount p) = Except.error m →
        (completePayment env p r g w).calls.countP Call.isPurchase =
          w.calls.countP Call.isPurchase) ∧
      (completePayment env p r' g' (completePayment env p r g w)).calls.countP Call.isProcess =
        w.calls.countP Call.isProcess + 2 := by
  have one : ∀ (r g : String) (w : World),
      (completePayment env p r g w).calls.countP Call.isProcess =
        w.calls.countP Call.isProcess + 1 := by
    intro r g w
    rw [completePayment_calls_eq, hu]
    simp only []
    split <;> simp [List.countP_append, List.countP_cons, Call.isProcess]
  refine ⟨one r g w, ?_, ?_, ?_⟩
  · intro x hx
    rw [completePayment_calls_eq, hu]
    simp [hx, List.countP_append, List.countP_cons, Call.isPurchase]
  · intro m hm
    rw [completePayment_calls_eq, hu]
    simp [hm, List.countP_append, List.countP_cons, Call.isPurchase]
  · rw [one r' g' (completePayment env p r g w), one r g w]

/-- C1 amended, at the sample session waiting on the USSD instructions: two commits make
two `processLessonPayment` calls. -/
theorem C1_every_commit_calls_again_witness :
    (completePayment happyEnv sampleProps "ussd_1700000000001" "ussd"
      (completePayment happyEnv sampleProps "ussd_1700000000000" "ussd"
        ussdWaiting)).calls.countP Call.isProcess = 2 :=
  (C1_every_commit_calls_again happyEnv sampleProps u1 "ussd_1700000000000" "ussd"
    "ussd_1700000000001" "ussd" ussdWaiting rfl).2.2.2

/-- C8: the bank-transfer happy path.  A logged-in buyer `u` buys lesson `L`, selects
`bank_transfer` and a bank; `initializeDirectBankTransfer` answers `'success'` and both
storage functions succeed.  Pressing pay takes the step from `select` through `processing`
to `transfer_details`; one press of the confirm button and its callback take it to
`success`.  In the whole run `processLessonPayment` and `purchaseLesson` are each called
exactly once, with buyer id `u.id` and lesson id `L.id`. -/
theorem C8_bank_transfer_happy_path (env : Env) (p : Props) (u : User) (L : Lesson)
    (b : String) (r : GatewayResult)
    (hu : p.currentUser = some u) (hl : p.lesson = some L) (hb : b ≠ "")
    (hinit : env.initializeDirectBankTransfer [] (amount p)
      { bankName := b, accountNumber := "", phoneNumber := "" } = Except.ok r)
    (hr : r.status = "success")
    (hproc : env.processLessonPayment
      [Call.initializeDirectBankTransfer (amount p)
        { bankName := b, accountNumber := "", phoneNumber := "" }]
      u.id (safeCourse p).teacherId (safeCourse p).key L.id (amount p) = Except.ok ())
    (hpur : env.purchaseLesson
      [Call.initializeDirectBankTransfer (amount p)
        { bankName := b, accountNumber := "", phoneNumber := "" },
       Call.processLessonPayment u.id (safeCourse p).teacherId (safeCourse p).key L.id
        (amount p)]
      u.id (safeCourse p).key L.id (amount p) = Except.ok true) :
    initial.step = Step.select ∧
      (run env p [Event.selectMethod "bank_transfer", Event.setBankName b, Event.clickPay]
        initial).step = Step.transfer_details ∧
      (run env p [Event.selectMethod "bank_transfer", Event.setBankName b, Event.clickPay]
        initial).stepLog = [Step.processing, Step.transfer_details] ∧
      (run env p [Event.selectMethod "bank_transfer", Event.setBankName b, Event.clickPay,
        Event.clickConfirmTransfer, Event.fire 0] initial).step = Step.success ∧
      (run env p [Event.selectMethod "bank_transfer", Event.setBankName b, Event.clickPay,
        Event.clickConfirmTransfer, Event.fire 0] initial).stepLog =
        [Step.processing, Step.transfer_details, Step.success] ∧
      (run env p [Event.selectMethod "bank_transfer", Event.setBankName b, Event.clickPay,
        Event.clickConfirmTransfer, Event.fire 0] initial).calls =
        [Call.initializeDirectBankTransfer (amount p)
          { bankName := b, accountNumber := "", phoneNumber := "" },
         Call.processLessonPayment u.id (safeCourse p).teacherId (safeCourse p).key L.id
          (amount p),
         Call.purchaseLesson u.id (safeCourse p).key L.id (amount p)] := by
  have hsl : (safeLesson p).id = L.id := by simp [safeLesson, hl]
  have pay : run env p [Event.selectMethod "bank_transfer", Event.setBankName b, Event.clickPay]
      initial =
      { initial with
        selectedMethod := "bank_transfer"
        bankDetails := { bankName := b, accountNumber := "", phoneNumber := "" }
        step := Step.transfer_details
        stepLog := [Step.processing, Step.transfer_details]
        paymentData := some r.data
        calls := [Call.initializeDirectBankTransfer (amount p)
          { bankName := b, accountNumber := "", phoneNumber := "" }] } := by
    simp [run, stepEvent, userEvent, hl, initial, paymentMethods, handlePayment, hu, dispatch,
      handleBankTransfer, hb, setError, setLoading, setStep, record, setPaymentData, hinit, hr]
  have fin : run env p [Event.selectMethod "bank_transfer", Event.setBankName b, Event.clickPay,
      Event.clickConfirmTransfer, Event.fire 0] initial =
      stepEvent env p (Event.fire 0) (stepEvent env p Event.clickConfirmTransfer
        (run env p [Event.selectMethod "bank_transfer", Event.setBankName b, Event.clickPay]
          initial)) := by
    simp [run]
  rw [fin, pay]
  simp [stepEvent, userEvent, hl, initial, handleConfirmTransfer, setTimeout, setLoading,
    runTimer, confirmTransferCallback, completePayment, hu, record, hproc, hpur, setStep,
    setError, hsl]

/-- C8 at the sample scenario: buyer `u1`, lesson `lessonA` priced 500000, bank `GTB`. -/
theorem C8_bank_transfer_happy_path_witness :
    (run happyEnv sampleProps
        [Event.selectMethod "bank_transfer", Event.setBankName "GTB", Event.clickPay,
          Event.clickConfirmTransfer, Event.fire 0] initial).step = Step.success ∧
      (run happyEnv sampleProps
        [Event.selectMethod "bank_transfer", Event.setBankName "GTB", Event.clickPay,
          Event.clickConfirmTransfer, Event.fire 0] initial).calls =
        [Call.initializeDirectBankTransfer 500000
          { bankName := "GTB", accountNumber := "", phoneNumber := "" },
         Call.processLessonPayment "u1" (some "t1") (some "courseA") (some "lessonA") 500000,
         Call.purchaseLesson "u1" (some "courseA") (some "lessonA") 500000] :=
  have h := C8_bank_transfer_happy_path happyEnv sampleProps u1 lessonA "GTB"
    { status := "success", message := "", data := sampleData }
    rfl rfl (by decide) rfl rfl rfl rfl
  ⟨h.2.2.2.1, h.2.2.2.2.2⟩

theorem unconfirmed_record (c : Call) (w : World) (hc : c.isFulfilment = false)
    (hw : Unconfirmed w) : Unconfirmed (record c w) := by
  obtain ⟨h1, h2, h3, h4⟩ := hw
  refine ⟨?_, h2, h3, h4⟩
  intro x hx
  rcases List.mem_append.1 hx with h | h
  · exact h1 x h
  · rw [List.mem_singleton.1 h]; exact hc

theorem unconfirmed_setStep (s : Step) (w : World) (hs : s ≠ Step.success)
    (hw : Unconfirmed w) : Unconfirmed (setStep s w) := by
  obtain ⟨h1, h2, h3, h4⟩ := hw
  refine ⟨h1, ?_, hs, h4⟩
  intro hx
  rcases List.mem_append.1 hx with h | h
  · exact h2 h
  · exact hs (List.mem_singleton.1 h).symm

theorem unconfirmed_setError (e : String) (w : World) (hw : Unconfirmed w) :
    Unconfirmed (setError e w) := hw

theorem unconfirmed_setLoading (b : Bool) (w : World) (hw : Unconfirmed w) :
    Unconfirmed (setLoading b w) := hw

theorem unconfirmed_setPaymentData (d : PaymentData) (w : World) (hw : Unconfirmed w) :
    Unconfirmed (setPaymentData d w) := hw

theorem unconfirmed_setTimeout (t : Timer) (w : World) (ht : t.isProviderConfirmation = true)
    (hw : Unconfirmed w) : Unconfirmed (setTimeout t w) := by
  obtain ⟨h1, h2, h3, h4⟩ := hw
  refine ⟨h1, h2, h3, ?_⟩
  intro x hx
  rcases List.mem_append.1 hx with h | h
  · exact h4 x h
  · rw [List.mem_singleton.1 h]; exact ht

theorem unconfirmed_handlePaystackPayment (env : Env) (p : Props) (u : User) (w : World)
    (hw : Unconfirmed w) : Unconfirmed (handlePaystackPayment env p u w).world := by
  unfold handlePaystackPayment
  simp only []
  have h2 := unconfirmed_record (Call.initializePaystackPayment u.email (amount p)
    { lesson_id := (safeLesson p).id, lesson_title := lessonTitle p,
      course_key := (safeCourse p).key, student_id := some u.id,
      student_name := some u.name }) _ rfl
    (unconfirmed_setStep Step.processing w (by decide) hw)
  split
  · exact h2
  · split
    · exact unconfirmed_setTimeout _ _ rfl (unconfirmed_setPaymentData _ _ h2)
    · exact h2

theorem unconfirmed_handleFlutterwavePayment (env : Env) (p : Props) (u : User) (w : World)
    (hw : Unconfirmed w) : Unconfirmed (handleFlutterwavePayment env p u w).world := by
  unfold handleFlutterwavePayment
  simp only []
  have h2 := unconfirmed_record (Call.initializeFlutterwavePayment u.email (amount p)
    { lesson_id := (safeLesson p).id, lesson_title := lessonTitle p,
      course_key := (safeCourse p).key, student_id := none, student_name := none }) _ rfl
    (unconfirmed_setStep Step.processing w (by decide) hw)
  split
  · exact h2
  · split
    · exact unconfirmed_setTimeout _ _ rfl (unconfirmed_setPaymentData _ _ h2)
    · exact h2

theorem unconfirmed_handleBankTransfer (env : Env) (p : Props) (w : World)
    (hw : Unconfirmed w) : Unconfirmed (handleBankTransfer env p w).world := by
  unfold handleBankTransfer
  split
  · exact hw
  · simp only []
    have h2 := unconfirmed_record (Call.initializeDirectBankTransfer (amount p) w.bankDetails)
      _ rfl (unconfirmed_setStep Step.processing w (by decide) hw)
    split
    · exact h2
    · split
      · exact unconfirmed_setStep _ _ (by decide) (unconfirmed_setPaymentData _ _ h2)
      · exact h2

theorem unconfirmed_handleUSSDPayment (env : Env) (p : Props) (w : World)
    (hw : Unconfirmed w) : Unconfirmed (handleUSSDPayment env p w).world := by
  unfold handleUSSDPayment
  split
  · exact hw
  · simp only []
    have h2 := unconfirmed_record (Call.generateUSSDCode (amount p) w.bankDetails.bankName)
      _ rfl hw
    split
    · exact h2
    · split
      · exact unconfirmed_setStep _ _ (by decide) (unconfirmed_setPaymentData _ _ h2)
      · exact h2

theorem unconfirmed_handleMobileMoneyPayment (env : Env) (p : Props) (w : World)
    (hw : Unconfirmed w) : Unconfirmed (handleMobileMoneyPayment env p w).world := by
  unfold handleMobileMoneyPayment
  split
  · exact hw
  · split
    · exact hw
    · simp only []
      have h2 := unconfirmed_record (Call.initializeMobileMoneyPayment
        w.bankDetails.phoneNumber (amount p) w.bankDetails.bankName)
        _ rfl (unconfirmed_setStep Step.processing w (by decide) hw)
      split
      · exact h2
      · split
        · exact unconfirmed_setStep _ _ (by decide) (unconfirmed_setPaymentData _ _ h2)
        · exact h2

theorem unconfirmed_dispatch (env : Env) (p : Props) (u : User) (w : World)
    (hw : Unconfirmed w) : Unconfirmed (dispatch env p u w).world := by
  unfold dispatch
  split
  · exact unconfirmed_handlePaystackPayment env p u w hw
  split
  · exact unconfirmed_handleFlutterwavePayment env p u w hw
  split
  · exact unconfirmed_handleBankTransfer env p w hw
  split
  · exact unconfirmed_handleUSSDPayment env p w hw
  split
  · exact unconfirmed_handleMobileMoneyPayment env p w hw
  · exact hw

theorem unconfirmed_handlePayment (env : Env) (p : Props) (w : World)
    (hw : Unconfirmed w) : Unconfirmed (handlePayment env p w) := by
  unfold handlePayment
  split
  · simpa [Unconfirmed, setError] using hw
  · rename_i u _
    have h0 : Unconfirmed (setError "" (setLoading true w)) := by
      simpa [Unconfirmed, setError, setLoading] using hw
    have h1 := unconfirmed_dispatch env p u _ h0
    simp only []
    cases h : dispatch env p u (setError "" (setLoading true w)) <;> rw [h] at h1
    · exact h1
    · exact unconfirmed_setStep _ _ (by decide) h1

theorem unconfirmed_stepEvent (env : Env) (p : Props) (e : Event) (w : World)
    (hw : Unconfirmed w) (he : e.confirms = false) : Unconfirmed (stepEvent env p e w) := by
  have hpay := unconfirmed_handlePayment env p w hw
  obtain ⟨h1, h2, h3, h4⟩ := hw
  cases e <;> simp [Event.confirms] at he <;> simp only [stepEvent, userEvent] <;>
    (repeat' split) <;>
    first
      | exact hpay
      | exact ⟨h1, h2, h3, h4⟩
      | simp_all [Unconfirmed, setStep]

theorem unconfirmed_run (env : Env) (p : Props) (es : List Event) :
    ∀ w : World, Unconfirmed w → (∀ e ∈ es, e.confirms = false) →
      Unconfirmed (run env p es w) := by
  induction es with
  | nil => intro w hw _; simpa [run] using hw
  | cons e es ih =>
    intro w hw hes
    have h1 : Unconfirmed (stepEvent env p e w) :=
      unconfirmed_stepEvent env p e w hw (hes e (List.mem_cons_self _ _))
    have h2 := ih (stepEvent env p e w) h1 (fun x hx => hes x (List.mem_cons_of_mem _ hx))
    simpa [run] using h2

theorem run_without_lesson (env : Env) (p : Props) (hl : p.lesson = none) (es : List Event) :
    ∀ w : World, (∀ e ∈ es, e.confirms = false) → run env p es w = w := by
  induction es with
  | nil => intro w _; rfl
  | cons e es ih =>
    intro w hes
    have he := hes e (List.mem_cons_self _ _)
    have h1 : stepEvent env p e w = w := by
      cases e <;> simp [Event.confirms] at he <;> simp [stepEvent, hl]
    have h2 := ih w (fun x hx => hes x (List.mem_cons_of_mem _ hx))
    simpa [run, h1] using h2

/-- C9: cancelling before confirming records nothing.  Take any run of the modal from its
first render in which no confirm action happened (no confirm button was pressed and no
deferred confirmation ran) and which has reached an attestation step
(`transfer_details`, `ussd_instructions` or `mobile_money_pending`).  After the Back /
'Try another method' button the step is `select`, not `success`; `setStep('success')` was
never called; `processLessonPayment` and `purchaseLesson` were called zero times; and no
callback of a confirm button or of a success is pending. -/
theorem C9_cancel_before_confirm (env : Env) (p : Props) (es : List Event)
    (hes : ∀ e ∈ es, e.confirms = false)
    (hreach : attestationStep (run env p es initial).step = true) :
    (run env p (es ++ [Event.clickBack]) initial).step = Step.select ∧
      (run env p (es ++ [Event.clickBack]) initial).step ≠ Step.success ∧
      Step.success ∉ (run env p (es ++ [Event.clickBack]) initial).stepLog ∧
      (run env p (es ++ [Event.clickBack]) initial).calls.countP Call.isProcess = 0 ∧
      (run env p (es ++ [Event.clickBack]) initial).calls.countP Call.isPurchase = 0 ∧
      ∀ t ∈ (run env p (es ++ [Event.clickBack]) initial).timers,
        t.isProviderConfirmation = true := by
  have h0 : Unconfirmed initial := by
    refine ⟨?_, ?_, ?_, ?_⟩ <;> simp [initial]
  have hes' : ∀ e ∈ es ++ [Event.clickBack], e.confirms = false := by
    intro e he
    rcases List.mem_append.1 he with h | h
    · exact hes e h
    · rw [List.mem_singleton.1 h]; rfl
  obtain ⟨h1, h2, h3, h4⟩ := unconfirmed_run env p (es ++ [Event.clickBack]) initial h0 hes'
  have hl : p.lesson.isNone = false := by
    cases hl : p.lesson with
    | some l => rfl
    | none =>
      rw [run_without_lesson env p hl es initial hes] at hreach
      simp [initial, attestationStep] at hreach
  have hstep : (run env p (es ++ [Event.clickBack]) initial).step = Step.select := by
    have : run env p (es ++ [Event.clickBack]) initial =
        stepEvent env p Event.clickBack (run env p es initial) := by
      simp [run, List.foldl_append]
    rw [this]
    simp [stepEvent, userEvent, hl, hreach, setStep]
  refine ⟨hstep, h3, h2, ?_, ?_, h4⟩
  · rw [List.countP_eq_zero]
    intro c hc hp
    have := h1 c hc
    cases c <;> simp_all [Call.isProcess, Call.isFulfilment]
  · rw [List.countP_eq_zero]
    intro c hc hp
    have := h1 c hc
    cases c <;> simp_all [Call.isPurchase, Call.isFulfilment]

/-- C9 at the sample scenario: bank transfer with bank `GTB`, then Back. -/
theorem C9_cancel_before_confirm_witness :
    attestationStep (run happyEnv sampleProps
        [Event.selectMethod "bank_transfer", Event.setBankName "GTB", Event.clickPay]
        initial).step = true ∧
      (run happyEnv sampleProps
        ([Event.selectMethod "bank_transfer", Event.setBankName "GTB", Event.clickPay] ++
          [Event.clickBack]) initial).step = Step.select ∧
      (run happyEnv sampleProps
        ([Event.selectMethod "bank_transfer", Event.setBankName "GTB", Event.clickPay] ++
          [Event.clickBack]) initial).calls.countP Call.isProcess = 0 ∧
      (run happyEnv sampleProps
        ([Event.selectMethod "bank_transfer", Event.setBankName "GTB", Event.clickPay] ++
          [Event.clickBack]) initial).calls.countP Call.isPurchase = 0 :=
  have h := C9_cancel_before_confirm happyEnv sampleProps
    [Event.selectMethod "bank_transfer", Event.setBankName "GTB", Event.clickPay]
    (by decide) (by decide)
  ⟨by decide, h.1, h.2.2.2.1, h.2.2.2.2.1⟩

/-- C10 on the code: a grant that rejects is reported, a grant that resolves to the
failure value is not.  When `purchaseLesson` throws or rejects, `completePayment` sets the
step `error` with `'Failed to complete payment processing'` and schedules no `onSuccess`.
When `purchaseLesson` resolves to `false`, the result is not looked at: the step becomes
`success`, the error text is untouched and `onSuccess` is scheduled. -/
theorem C10_failed_grant_reported_as_success (env : Env) (p : Props) (u : User)
    (r g : String) (w : World) (hu : p.currentUser = some u)
    (hproc : env.processLessonPayment w.calls u.id (safeCourse p).teacherId (safeCourse p).key
      (safeLesson p).id (amount p) = Except.ok ()) :
    (∀ m, env.purchaseLesson
        (w.calls ++ [Call.processLessonPayment u.id (safeCourse p).teacherId (safeCourse p).key
          (safeLesson p).id (amount p)])
        u.id (safeCourse p).key (safeLesson p).id (amount p) = Except.error m →
      (completePayment env p r g w).step = Step.error ∧
        (completePayment env p r g w).error = "Failed to complete payment processing" ∧
        (completePayment env p r g w).stepLog = w.stepLog ++ [Step.error] ∧
        (completePayment env p r g w).timers = w.timers) ∧
      (env.purchaseLesson
        (w.calls ++ [Call.processLessonPayment u.id (safeCourse p).teacherId (safeCourse p).key
          (safeLesson p).id (amount p)])
        u.id (safeCourse p).key (safeLesson p).id (amount p) = Except.ok false →
      (completePayment env p r g w).step = Step.success ∧
        (completePayment env p r g w).error = w.error ∧
        (completePayment env p r g w).timers = w.timers ++ [Timer.notifyParent]) := by
  constructor
  · intro m hm
    simp [completePayment, hu, hproc, record, hm, setStep, setError]
  · intro hf
    simp [completePayment, hu, hproc, record, hf, setStep, setTimeout]

/-- C10 at the sample session waiting on the USSD instructions, when `purchaseLesson`
resolves to `false`: the modal shows success. -/
theorem C10_failed_grant_reported_as_success_witness :
    (completePayment grantRefusedEnv sampleProps "ussd_1700000000000" "ussd" ussdWaiting).step =
        Step.success ∧
      (completePayment grantRefusedEnv sampleProps "ussd_1700000000000" "ussd"
        ussdWaiting).timers = [Timer.notifyParent] :=
  have h := (C10_failed_grant_reported_as_success grantRefusedEnv sampleProps u1
    "ussd_1700000000000" "ussd" ussdWaiting rfl rfl).2 rfl
  ⟨h.1, h.2.2⟩

/-- C11 on the code: commit order and recorded-on-failure.  The calls that one
`completePayment` makes are `processLessonPayment` alone, or `processLessonPayment`
followed by `purchaseLesson`: the transaction is recorded before access is granted and
nothing is called afterwards (no compensating call).  When `processLessonPayment`
rejects, `purchaseLesson` is not called.  When `purchaseLesson` rejects after
`processLessonPayment` resolved, the two calls stay and the error
`'Failed to complete payment processing'` is reported in step `error`.  When
`purchaseLesson` resolves to `false`, the failure value of `App.handleLessonPurchase`,
the two calls stay as well, but no error is reported: the error text is untouched, the
step is `success` and `onSuccess` is scheduled. -/
theorem C11_record_then_grant (env : Env) (p : Props) (u : User) (r g : String) (w : World)
    (hu : p.currentUser = some u) :
    ((completePayment env p r g w).calls = w.calls ++
        [Call.processLessonPayment u.id (safeCourse p).teacherId (safeCourse p).key
          (safeLesson p).id (amount p)] ∨
      (completePayment env p r g w).calls = w.calls ++
        [Call.processLessonPayment u.id (safeCourse p).teacherId (safeCourse p).key
          (safeLesson p).id (amount p),
         Call.purchaseLesson u.id (safeCourse p).key (safeLesson p).id (amount p)]) ∧
      (∀ m, env.processLessonPayment w.calls u.id (safeCourse p).teacherId (safeCourse p).key
          (safeLesson p).id (amount p) = Except.error m →
        (completePayment env p r g w).calls = w.calls ++
          [Call.processLessonPayment u.id (safeCourse p).teacherId (safeCourse p).key
            (safeLesson p).id (amount p)] ∧
        (completePayment env p r g w).calls.countP Call.isPurchase =
          w.calls.countP Call.isPurchase ∧
        (completePayment env p r g w).step = Step.error) ∧
      (∀ x m, env.processLessonPayment w.calls u.id (safeCourse p).teacherId (safeCourse p).key
          (safeLesson p).id (amount p) = Except.ok x →
        env.purchaseLesson
          (w.calls ++ [Call.processLessonPayment u.id (safeCourse p).teacherId
            (safeCourse p).key (safeLesson p).id (amount p)])
          u.id (safeCourse p).key (safeLesson p).id (amount p) = Except.error m →
        (completePayment env p r g w).calls = w.calls ++
          [Call.processLessonPayment u.id (safeCourse p).teacherId (safeCourse p).key
            (safeLesson p).id (amount p),
           Call.purchaseLesson u.id (safeCourse p).key (safeLesson p).id (amount p)] ∧
        (completePayment env p r g w).timers = w.timers ∧
        (completePayment env p r g w).step = Step.error ∧
        (completePayment env p r g w).error = "Failed to complete payment processing") ∧
      (∀ x, env.processLessonPayment w.calls u.id (safeCourse p).teacherId (safeCourse p).key
          (safeLesson p).id (amount p) = Except.ok x →
        env.purchaseLesson
          (w.calls ++ [Call.processLessonPayment u.id (safeCourse p).teacherId
            (safeCourse p).key (safeLesson p).id (amount p)])
          u.id (safeCourse p).key (safeLesson p).id (amount p) = Except.ok false →
        (completePayment env p r g w).calls = w.calls ++
          [Call.processLessonPayment u.id (safeCourse p).teacherId (safeCourse p).key
            (safeLesson p).id (amount p),
           Call.purchaseLesson u.id (safeCourse p).key (safeLesson p).id (amount p)] ∧
        (completePayment env p r g w).error = w.error ∧
        (completePayment env p r g w).step = Step.success ∧
        (completePayment env p r g w).stepLog = w.stepLog ++ [Step.success] ∧
        (completePayment env p r g w).timers = w.timers ++ [Timer.notifyParent]) := by
  refine ⟨?_, ?_, ?_, ?_⟩
  · rw [completePayment_calls_eq, hu]
    simp only []
    split
    · exact Or.inl rfl
    · exact Or.inr rfl
  · intro m hm
    simp [completePayment, hu, hm, record, setStep, setError, List.countP_append,
      List.countP_cons, Call.isPurchase]
  · intro x m hx hm
    simp [completePayment, hu, hx, hm, record, setStep, setError]
  · intro x hx hf
    simp [completePayment, hu, hx, hf, record, setStep, setTimeout]

/-- C11 at the sample session waiting on the USSD instructions.  When `purchaseLesson`
rejects, the payment stays recorded, nothing is called after the grant and the step is
`error`; when it resolves to `false`, the payment stays recorded and the step is
`success` with the error text still empty. -/
theorem C11_record_then_grant_witness :
    (completePayment grantRejectsEnv sampleProps "ussd_1700000000000" "ussd" ussdWaiting).calls =
        ussdWaiting.calls ++
          [Call.processLessonPayment "u1" (some "t1") (some "courseA") (some "lessonA") 500000,
           Call.purchaseLesson "u1" (some "courseA") (some "lessonA") 500000] ∧
      (completePayment grantRejectsEnv sampleProps "ussd_1700000000000" "ussd"
        ussdWaiting).step = Step.error ∧
      (completePayment grantRefusedEnv sampleProps "ussd_1700000000000" "ussd"
        ussdWaiting).calls =
        ussdWaiting.calls ++
          [Call.processLessonPayment "u1" (some "t1") (some "courseA") (some "lessonA") 500000,
           Call.purchaseLesson "u1" (some "courseA") (some "lessonA") 500000] ∧
      (completePayment grantRefusedEnv sampleProps "ussd_1700000000000" "ussd"
        ussdWaiting).error = "" ∧
      (completePayment grantRefusedEnv sampleProps "ussd_1700000000000" "ussd"
        ussdWaiting).step = Step.success :=
  have h := (C11_record_then_grant grantRejectsEnv sampleProps u1 "ussd_1700000000000" "ussd"
    ussdWaiting rfl).2.2.1 () "storage unavailable" rfl rfl
  have h' := (C11_record_then_grant grantRefusedEnv sampleProps u1 "ussd_1700000000000" "ussd"
    ussdWaiting rfl).2.2.2 () rfl rfl
  ⟨h.1, h.2.2.1, h'.1, h'.2.1, h'.2.2.1⟩

theorem recorded_append (env : Env) (cs : List Call) (c : Call) :
    recorded env (cs ++ [c]) =
      recorded env cs + (if c.recordsTransaction env cs then 1 else 0) := by
  simp [recorded, recordedNewestFirst]

theorem accounted_record (env : Env) (c : Call) (w : World) (hw : Accounted env w) :
    Accounted env (record c w) := by
  obtain ⟨h1, h2⟩ := hw
  refine ⟨?_, h2⟩
  show w.stepLog.count Step.success ≤ recorded env (w.calls ++ [c])
  rw [recorded_append]
  omega

theorem accounted_setStep (env : Env) (s : Step) (w : World) (hs : s ≠ Step.success)
    (hw : Accounted env w) : Accounted env (setStep s w) := by
  obtain ⟨h1, h2⟩ := hw
  refine ⟨?_, fun h => absurd h hs⟩
  show (w.stepLog ++ [s]).count Step.success ≤ recorded env w.calls
  rw [List.count_append, List.count_singleton]
  have : (s == Step.success) = false := by simpa using hs
  simp [this, h1]

theorem accounted_setError (env : Env) (e : String) (w : World) (hw : Accounted env w) :
    Accounted env (setError e w) := hw

theorem accounted_setLoading (env : Env) (b : Bool) (w : World) (hw : Accounted env w) :
    Accounted env (setLoading b w) := hw

theorem accounted_setPaymentData (env : Env) (d : PaymentData) (w : World)
    (hw : Accounted env w) : Accounted env (setPaymentData d w) := hw

theorem accounted_setTimeout (env : Env) (t : Timer) (w : World) (hw : Accounted env w) :
    Accounted env (setTimeout t w) := hw

theorem accounted_completePayment (env : Env) (p : Props) (r g : String) (w : World)
    (hw : Accounted env w) : Accounted env (completePayment env p r g w) := by
  unfold completePayment
  simp only []
  split
  · exact accounted_setStep env _ _ (by decide) (accounted_setError env _ _ hw)
  · rename_i u _
    split
    · exact accounted_setStep env _ _ (by decide)
        (accounted_setError env _ _ (accounted_record env _ _ hw))
    · rename_i x hx
      split
      · exact accounted_setStep env _ _ (by decide)
          (accounted_setError env _ _ (accounted_record env _ _ (accounted_record env _ _ hw)))
      · obtain ⟨h1, _⟩ := hw
        refine ⟨?_, fun _ => ?_⟩
        · show (w.stepLog ++ [Step.success]).count Step.success ≤
            recorded env ((w.calls ++ [Call.processLessonPayment u.id (safeCourse p).teacherId
              (safeCourse p).key (safeLesson p).id (amount p)]) ++
              [Call.purchaseLesson u.id (safeCourse p).key (safeLesson p).id (amount p)])
          rw [recorded_append, recorded_append, List.count_append, List.count_singleton]
          simp [Call.recordsTransaction, hx]
          omega
        · show Step.success ∈ w.stepLog ++ [Step.success]
          simp

theorem accounted_handlePaystackPayment (env : Env) (p : Props) (u : User) (w : World)
    (hw : Accounted env w) : Accounted env (handlePaystackPayment env p u w).world := by
  unfold handlePaystackPayment
  simp only []
  have h2 := accounted_record env (Call.initializePaystackPayment u.email (amount p)
    { lesson_id := (safeLesson p).id, lesson_title := lessonTitle p,
      course_key := (safeCourse p).key, student_id := some u.id,
      student_name := some u.name }) _
    (accounted_setStep env Step.processing w (by decide) hw)
  split
  · exact h2
  · split
    · exact accounted_setTimeout env _ _ (accounted_setPaymentData env _ _ h2)
    · exact h2

theorem accounted_handleFlutterwavePayment (env : Env) (p : Props) (u : User) (w : World)
    (hw : Accounted env w) : Accounted env (handleFlutterwavePayment env p u w).world := by
  unfold handleFlutterwavePayment
  simp only []
  have h2 := accounted_record env (Call.initializeFlutterwavePayment u.email (amount p)
    { lesson_id := (safeLesson p).id, lesson_title := lessonTitle p,
      course_key := (safeCourse p).key, student_id := none, student_name := none }) _
    (accounted_setStep env Step.processing w (by decide) hw)
  split
  · exact h2
  · split
    · exact accounted_setTimeout env _ _ (accounted_setPaymentData env _ _ h2)
    · exact h2

theorem accounted_handleBankTransfer (env : Env) (p : Props) (w : World)
    (hw : Accounted env w) : Accounted env (handleBankTransfer env p w).world := by
  unfold handleBankTransfer
  split
  · exact hw
  · simp only []
    have h2 := accounted_record env
      (Call.initializeDirectBankTransfer (amount p) w.bankDetails) _
      (accounted_setStep env Step.processing w (by decide) hw)
    split
    · exact h2
    · split
      · exact accounted_setStep env _ _ (by decide) (accounted_setPaymentData env _ _ h2)
      · exact h2

theorem accounted_handleUSSDPayment (env : Env) (p : Props) (w : World)
    (hw : Accounted env w) : Accounted env (handleUSSDPayment env p w).world := by
  unfold handleUSSDPayment
  split
  · exact hw
  · simp only []
    have h2 := accounted_record env
      (Call.generateUSSDCode (amount p) w.bankDetails.bankName) _ hw
    split
    · exact h2
    · split
      · exact accounted_setStep env _ _ (by decide) (accounted_setPaymentData env _ _ h2)
      · exact h2

theorem accounted_handleMobileMoneyPayment (env : Env) (p : Props) (w : World)
    (hw : Accounted env w) : Accounted env (handleMobileMoneyPayment env p w).world := by
  unfold handleMobileMoneyPayment
  split
  · exact hw
  · split
    · exact hw
    · simp only []
      have h2 := accounted_record env (Call.initializeMobileMoneyPayment
        w.bankDetails.phoneNumber (amount p) w.bankDetails.bankName) _
        (accounted_setStep env Step.processing w (by decide) hw)
      split
      · exact h2
      · split
        · exact accounted_setStep env _ _ (by decide) (accounted_setPaymentData env _ _ h2)
        · exact h2

theorem accounted_dispatch (env : Env) (p : Props) (u : User) (w : World)
    (hw : Accounted env w) : Accounted env (dispatch env p u w).world := by
  unfold dispatch
  split
  · exact accounted_handlePaystackPayment env p u w hw
  split
  · exact accounted_handleFlutterwavePayment env p u w hw
  split
  · exact accounted_handleBankTransfer env p w hw
  split
  · exact accounted_handleUSSDPayment env p w hw
  split
  · exact accounted_handleMobileMoneyPayment env p w hw
  · exact hw

theorem accounted_handlePayment (env : Env) (p : Props) (w : World)
    (hw : Accounted env w) : Accounted env (handlePayment env p w) := by
  unfold handlePayment
  split
  · exact hw
  · rename_i u _
    have h1 := accounted_dispatch env p u _
      (accounted_setError env "" _ (accounted_setLoading env true w hw))
    simp only []
    cases h : dispatch env p u (setError "" (setLoading true w)) <;> rw [h] at h1
    · exact h1
    · exact accounted_setStep env _ _ (by decide) h1

theorem accounted_runTimer (env : Env) (p : Props) (t : Timer) (w : World)
    (hw : Accounted env w) : Accounted env (runTimer env p t w) := by
  cases t with
  | verifyPaystack reference =>
    simp only [runTimer, verifyPaystackCallback]
    have h1 := accounted_record env (Call.verifyPaystackPayment reference) w hw
    split
    · exact h1
    · split
      · exact accounted_completePayment env p _ _ _ h1
      · exact accounted_setStep env _ _ (by decide) (accounted_setError env _ _ h1)
  | completeFlutterwave =>
    simp only [runTimer]
    exact accounted_completePayment env p _ _ w hw
  | confirmTransfer d =>
    simp only [runTimer, confirmTransferCallback]
    split
    · exact hw
    · exact accounted_completePayment env p _ _ w hw
  | notifyParent => exact hw

theorem accounted_userEvent (env : Env) (p : Props) (e : Event) (w : World)
    (hw : Accounted env w) : Accounted env (userEvent env p e w) := by
  have hpay := accounted_handlePayment env p w hw
  have hcp := fun r g => accounted_completePayment env p r g w hw
  have hsel := accounted_setStep env Step.select w (by decide) hw
  cases e <;> simp only [userEvent] <;> (repeat' split) <;>
    first
      | exact hw
      | exact hpay
      | exact hcp _ _
      | exact hsel

theorem accounted_stepEvent (env : Env) (p : Props) (e : Event) (w : World)
    (hw : Accounted env w) : Accounted env (stepEvent env p e w) := by
  have hu := accounted_userEvent env p e w hw
  cases e <;> simp only [stepEvent] <;> (repeat' split) <;>
    first
      | exact hw
      | exact hu
      | exact accounted_runTimer env p _ _ hw

theorem accounted_run (env : Env) (p : Props) (es : List Event) :
    ∀ w : World, Accounted env w → Accounted env (run env p es w) := by
  induction es with
  | nil => intro w hw; simpa [run] using hw
  | cons e es ih =>
    intro w hw
    have h2 := ih (stepEvent env p e w) (accounted_stepEvent env p e w hw)
    simpa [run] using h2

/-- C12, as stated, fails: when `purchaseLesson` rejects after `processLessonPayment`
resolved, the transaction is recorded, yet the run ends in step `error` and `success` was
never set. -/
theorem C12_recorded_without_success_counterexample :
    recorded grantRejectsEnv
        (run grantRejectsEnv sampleProps
          [Event.selectMethod "ussd", Event.setBankName "GTB", Event.clickPay,
            Event.clickConfirmUssd] initial).calls = 1 ∧
      (run grantRejectsEnv sampleProps
        [Event.selectMethod "ussd", Event.setBankName "GTB", Event.clickPay,
          Event.clickConfirmUssd] initial).step = Step.error ∧
      (run grantRejectsEnv sampleProps
        [Event.selectMethod "ussd", Event.setBankName "GTB", Event.clickPay,
          Event.clickConfirmUssd] initial).stepLog =
        [Step.ussd_instructions, Step.error] := by
  decide

/-- C12, amended: no success without a recorded transaction.  In every run of the modal
from its first render, `setStep('success')` has been called at most as often as
`processLessonPayment` has resolved; so whenever the step is, or has been, `success`, a
transaction is recorded.  (The converse fails when `purchaseLesson` rejects: the
transaction stays recorded and the run ends in `error`.) -/
theorem C12_success_has_record (env : Env) (p : Props) (es : List Event) :
    (run env p es initial).stepLog.count Step.success ≤
        recorded env (run env p es initial).calls ∧
      ((run env p es initial).step = Step.success →
        0 < recorded env (run env p es initial).calls) ∧
      (Step.success ∈ (run env p es initial).stepLog →
        0 < recorded env (run env p es initial).calls) := by
  have h0 : Accounted env initial := by
    refine ⟨?_, ?_⟩ <;> simp [initial]
  obtain ⟨h1, h2⟩ := accounted_run env p es initial h0
  have h3 : Step.success ∈ (run env p es initial).stepLog →
      0 < recorded env (run env p es initial).calls := by
    intro h
    have := List.count_pos_iff.2 h
    omega
  exact ⟨h1, fun h => h3 (h2 h), h3⟩

/-- C12 amended, at the bank-transfer run of the sample scenario: the step is `success`
and a transaction is recorded. -/
theorem C12_success_has_record_witness :
    0 < recorded happyEnv
      (run happyEnv sampleProps
        [Event.selectMethod "bank_transfer", Event.setBankName "GTB", Event.clickPay,
          Event.clickConfirmTransfer, Event.fire 0] initial).calls :=
  (C12_success_has_record happyEnv sampleProps
    [Event.selectMethod "bank_transfer", Event.setBankName "GTB", Event.clickPay,
      Event.clickConfirmTransfer, Event.fire 0]).2.1 (by decide)

theorem completePayment_step (env : Env) (p : Props) (r g : String) (w : World) :
    (completePayment env p r g w).step = Step.success ∨
      (completePayment env p r g w).step = Step.error := by
  unfold completePayment
  simp only []
  split
  · exact Or.inr rfl
  · split
    · exact Or.inr rfl
    · split
      · exact Or.inr rfl
      · exact Or.inl rfl

theorem runTimer_step (env : Env) (p : Props) (t : Timer) (w : World) :
    (runTimer env p t w).step = w.step ∨ (runTimer env p t w).step = Step.success ∨
      (runTimer env p t w).step = Step.error := by
  cases t with
  | verifyPaystack reference =>
    simp only [runTimer, verifyPaystackCallback]
    split
    · exact Or.inl rfl
    · split
      · exact Or.inr (completePayment_step env p _ _ _)
      · exact Or.inr (Or.inr rfl)
  | completeFlutterwave =>
    simp only [runTimer]
    exact Or.inr (completePayment_step env p _ _ _)
  | confirmTransfer d =>
    simp only [runTimer, confirmTransferCallback]
    split
    · exact Or.inl rfl
    · exact Or.inr (completePayment_step env p _ _ _)
  | notifyParent => exact Or.inl rfl

/-- C13, as stated, fails: the Back button of each attestation step calls
`setStep('select')`, so `transfer_details`, `ussd_instructions` and
`mobile_money_pending` do have a transition back to `select`. -/
theorem C13_back_from_pending_counterexample :
    ussdWaiting.step = Step.ussd_instructions ∧
      (stepEvent happyEnv sampleProps Event.clickBack ussdWaiting).step = Step.select ∧
      (run happyEnv sampleProps
        [Event.selectMethod "bank_transfer", Event.setBankName "GTB", Event.clickPay]
        initial).step = Step.transfer_details ∧
      (run happyEnv sampleProps
        [Event.selectMethod "bank_transfer", Event.setBankName "GTB", Event.clickPay,
          Event.clickBack] initial).step = Step.select ∧
      (run happyEnv sampleProps
        [Event.selectMethod "mobile_money", Event.setBankName "OPay",
          Event.setPhoneNumber "08012345678", Event.clickPay]
        initial).step = Step.mobile_money_pending ∧
      (run happyEnv sampleProps
        [Event.selectMethod "mobile_money", Event.setBankName "OPay",
          Event.setPhoneNumber "08012345678", Event.clickPay, Event.clickBack]
        initial).step = Step.select := by
  decide

/-- C13, amended: the steps from which the modal re-enters `select`.  Every event whose
target step is `select` has source step `select`, `error`, or one of the three attestation
steps `transfer_details`, `ussd_instructions`, `mobile_money_pending` (their Back button);
`processing` and `success` have no transition back to `select`. -/
theorem C13_sources_of_select (env : Env) (p : Props) (e : Event) (w : World) :
    ((stepEvent env p e w).step = Step.select →
        w.step = Step.select ∨ w.step = Step.error ∨ w.step = Step.transfer_details ∨
          w.step = Step.ussd_instructions ∨ w.step = Step.mobile_money_pending) ∧
      (w.step = Step.processing ∨ w.step = Step.success →
        (stepEvent env p e w).step ≠ Step.select) := by
  have key : (stepEvent env p e w).step = Step.select →
      w.step = Step.select ∨ w.step = Step.error ∨ w.step = Step.transfer_details ∨
        w.step = Step.ussd_instructions ∨ w.step = Step.mobile_money_pending := by
    intro h
    by_cases hs : w.step = Step.select
    · exact Or.inl hs
    · right
      cases e with
      | fire i =>
        simp only [stepEvent] at h
        split at h
        · rename_i t _
          rcases runTimer_step env p t { w with timers := w.timers.eraseIdx i } with h1 | h1 | h1
          · rw [h1] at h; exact absurd h hs
          · rw [h1] at h; exact absurd h (by decide)
          · rw [h1] at h; exact absurd h (by decide)
        · exact absurd h hs
      | clickBack =>
        simp only [stepEvent, userEvent] at h
        split at h
        · exact absurd h hs
        · split at h
          · rename_i ha
            cases hw : w.step <;> simp_all [attestationStep]
          · exact absurd h hs
      | clickRetry =>
        simp only [stepEvent, userEvent] at h
        split at h
        · exact absurd h hs
        · split at h
          · rename_i ha
            exact Or.inl ha
          · exact absurd h hs
      | clickPay =>
        simp only [stepEvent, userEvent] at h
        split at h
        · exact absurd h hs
        · split at h
          · rename_i ha
            exact absurd ha.1 hs
          · exact absurd h hs
      | clickConfirmUssd =>
        simp only [stepEvent, userEvent] at h
        split at h
        · exact absurd h hs
        · split at h
          · rcases completePayment_step env p ("ussd_" ++ toString env.now) "ussd" w
              with h1 | h1 <;> rw [h1] at h <;> exact absurd h (by decide)
          · exact absurd h hs
      | clickConfirmMobileMoney =>
        simp only [stepEvent, userEvent] at h
        split at h
        · exact absurd h hs
        · split at h
          · split at h
            · rename_i d _
              rcases completePayment_step env p d.transaction_id "mobile_money" w
                with h1 | h1 <;> rw [h1] at h <;> exact absurd h (by decide)
            · exact absurd h hs
          · exact absurd h hs
      | clickConfirmTransfer =>
        simp only [stepEvent, userEvent] at h
        split at h
        · exact absurd h hs
        · split at h
          · exact absurd h hs
          · exact absurd h hs
      | selectMethod id =>
        simp only [stepEvent, userEvent] at h
        split at h
        · exact absurd h hs
        · split at h <;> exact absurd h hs
      | setBankName v =>
        simp only [stepEvent, userEvent] at h
        split at h
        · exact absurd h hs
        · split at h <;> exact absurd h hs
      | setPhoneNumber v =>
        simp only [stepEvent, userEvent] at h
        split at h
        · exact absurd h hs
        · split at h <;> exact absurd h hs
      | clickClose =>
        simp only [stepEvent, userEvent] at h
        split at h
        · exact absurd h hs
        · split at h <;> exact absurd h hs
  refine ⟨key, ?_⟩
  intro hsrc htgt
  rcases key htgt with h | h | h | h | h <;> rcases hsrc with h' | h' <;>
    rw [h] at h' <;> exact absurd h' (by decide)

/-- C13 amended, at the sample session waiting on the USSD instructions: Back leads to
`select` from `ussd_instructions`. -/
theorem C13_sources_of_select_witness :
    ussdWaiting.step = Step.select ∨ ussdWaiting.step = Step.error ∨
      ussdWaiting.step = Step.transfer_details ∨ ussdWaiting.step = Step.ussd_instructions ∨
      ussdWaiting.step = Step.mobile_money_pending :=
  (C13_sources_of_select happyEnv sampleProps Event.clickBack ussdWaiting).1 (by decide)

/-- An invocation of `completePayment` that nothing interleaves with is the function
`completePayment`. -/
theorem completePayment_eq_phases (env : Env) (p : Props) (r g : String) (w : World) :
    completePayment env p r g w =
      completePaymentFinish env p (completePaymentBegin env p w).2
        (completePaymentBegin env p w).1 := by
  unfold completePayment completePaymentBegin
  cases hu : p.currentUser with
  | none => simp [completePaymentFinish, completePaymentFailed]
  | some u =>
    simp only []
    cases hp : env.processLessonPayment w.calls u.id (safeCourse p).teacherId
        (safeCourse p).key (safeLesson p).id (amount p) with
    | error m => simp [completePaymentFinish, completePaymentResume, completePaymentFailed]
    | ok x =>
      simp only [completePaymentFinish, completePaymentResume]
      cases hq : env.purchaseLesson (record (Call.processLessonPayment u.id
          (safeCourse p).teacherId (safeCourse p).key (safeLesson p).id (amount p)) w).calls
          u.id (safeCourse p).key (safeLesson p).id (amount p) with
      | error m => simp [completePaymentFailed]
      | ok y => simp

/-- C14 on the code: `success` is left when a second `completePayment` is in flight.
The user actions offered in step `success` and the `onSuccess` callback change neither
the step nor the calls.  But the confirm button of `ussd_instructions` is not disabled
while `completePayment` is in flight: after two presses the first invocation sets
`success`, and the second, finishing afterwards, sets `error` when its
`processLessonPayment` rejects, and otherwise calls `purchaseLesson` once more after the
step has become `success`. -/
theorem C14_success_left_by_second_commit :
    (∀ (env : Env) (p : Props) (w : World) (e : Event),
        w.step = Step.success → (∀ i, e ≠ Event.fire i) →
        (stepEvent env p e w).step = Step.success ∧ (stepEvent env p e w).calls = w.calls) ∧
      (∀ (env : Env) (p : Props) (w : World),
        (runTimer env p Timer.notifyParent w).step = w.step ∧
          (runTimer env p Timer.notifyParent w).calls = w.calls) ∧
      ussdWaiting.step = Step.ussd_instructions ∧
      (pressTwice paidOnceEnv sampleProps ussdWaiting).1.step = Step.success ∧
      (pressTwice paidOnceEnv sampleProps ussdWaiting).2.step = Step.error ∧
      (pressTwice paidOnceEnv sampleProps ussdWaiting).2.stepLog =
        [Step.ussd_instructions, Step.success, Step.error] ∧
      (pressTwice happyEnv sampleProps ussdWaiting).1.step = Step.success ∧
      (pressTwice happyEnv sampleProps ussdWaiting).1.calls =
        [Call.generateUSSDCode 500000 "GTB",
          Call.processLessonPayment "u1" (some "t1") (some "courseA") (some "lessonA") 500000,
          Call.processLessonPayment "u1" (some "t1") (some "courseA") (some "lessonA") 500000,
          Call.purchaseLesson "u1" (some "courseA") (some "lessonA") 500000] ∧
      (pressTwice happyEnv sampleProps ussdWaiting).2.calls =
        (pressTwice happyEnv sampleProps ussdWaiting).1.calls ++
          [Call.purchaseLesson "u1" (some "courseA") (some "lessonA") 500000] := by
  refine ⟨?_, ?_, by decide, by decide, by decide, by decide, by decide, by decide, by decide⟩
  · intro env p w e hs he
    cases e <;> simp only [stepEvent, userEvent] <;> (repeat' split) <;>
      simp_all [attestationStep]
  · intro env p w
    exact ⟨rfl, rfl⟩

/-- C14 at a sample state in step `success`: closing the modal leaves the step. -/
theorem C14_success_left_by_second_commit_witness :
    (stepEvent happyEnv sampleProps Event.clickClose
        (pressTwice paidOnceEnv sampleProps ussdWaiting).1).step = Step.success :=
  (C14_success_left_by_second_commit.1 happyEnv sampleProps
    (pressTwice paidOnceEnv sampleProps ussdWaiting).1 Event.clickClose
    (by decide) (fun _ h => Event.noConfusion h)).1

/-- C15, as stated, fails: when flutterwave declines with an empty (or missing) message,
the error shown is the fallback text, not `result.message`. -/
theorem C15_message_fallback_counterexample :
    (run flutterwaveDeclinedEnv sampleProps [Event.selectMethod "flutterwave", Event.clickPay]
        initial).step = Step.error ∧
      (run flutterwaveDeclinedEnv sampleProps [Event.selectMethod "flutterwave", Event.clickPay]
        initial).error = "Payment failed. Please try again." ∧
      (run flutterwaveDeclinedEnv sampleProps [Event.selectMethod "flutterwave", Event.clickPay]
        initial).error ≠ "" := by
  decide

/-- C15, amended: on the flutterwave rail the outcome is decided by the initiate result
alone.  The only call of `handlePayment` is `initializeFlutterwavePayment` (no verify
call).  When it returns status `'success'` the step is `processing` and the callback that
invokes `completePayment` is scheduled (and that callback adds fulfilment calls only).
Otherwise nothing is scheduled and the step is `error`, carrying `result.message`, or
`'Payment failed. Please try again.'` when `result.message` is empty. -/
theorem C15_flutterwave_outcome (env : Env) (p : Props) (u : User) (w : World)
    (r : GatewayResult) (hu : p.currentUser = some u) (hm : w.selectedMethod = "flutterwave")
    (hinit : env.initializeFlutterwavePayment w.calls u.email (amount p)
      { lesson_id := (safeLesson p).id, lesson_title := lessonTitle p,
        course_key := (safeCourse p).key, student_id := none, student_name := none } =
      Except.ok r) :
    (handlePayment env p w).calls = w.calls ++
        [Call.initializeFlutterwavePayment u.email (amount p)
          { lesson_id := (safeLesson p).id, lesson_title := lessonTitle p,
            course_key := (safeCourse p).key, student_id := none, student_name := none }] ∧
      (r.status = "success" →
        (handlePayment env p w).timers = w.timers ++ [Timer.completeFlutterwave] ∧
          (handlePayment env p w).step = Step.processing ∧
          (handlePayment env p w).paymentData = some r.data) ∧
      (r.status ≠ "success" →
        (handlePayment env p w).timers = w.timers ∧
          (handlePayment env p w).step = Step.error ∧
          (handlePayment env p w).error =
            (if r.message = "" then "Payment failed. Please try again." else r.message)) ∧
      (∀ w' : World,
        runTimer env p Timer.completeFlutterwave w' =
            completePayment env p ("flutterwave_" ++ toString env.now) "flutterwave" w' ∧
          ∀ c ∈ (runTimer env p Timer.completeFlutterwave w').calls,
            c ∈ w'.calls ∨ c.isFulfilment = true) := by
  have hne : ¬ ("flutterwave" = "paystack") := by decide
  refine ⟨?_, ?_, ?_, ?_⟩
  · rw [handlePayment_calls_eq env p u w hu]
    simp only [dispatch, setError, setLoading, hm, hne, if_false, if_true]
    rw [handleFlutterwavePayment_calls]
  · intro hr
    simp [handlePayment, hu, dispatch, hm, handleFlutterwavePayment, setError, setLoading,
      setStep, record, setTimeout, setPaymentData, hinit, hr]
  · intro hr
    simp [handlePayment, hu, dispatch, hm, handleFlutterwavePayment, setError, setLoading,
      setStep, record, hinit, hr, messageOr]
  · intro w'
    refine ⟨rfl, ?_⟩
    intro c hc
    rcases completePayment_calls env p ("flutterwave_" ++ toString env.now) "flutterwave" w' c hc
      with h | h
    · exact Or.inl h
    · exact Or.inr h.1

/-- C15 amended, at the sample state with flutterwave selected and a successful
initiation: the completion callback is scheduled. -/
theorem C15_flutterwave_outcome_witness :
    (handlePayment happyEnv sampleProps { initial with selectedMethod := "flutterwave" }).timers =
        [Timer.completeFlutterwave] ∧
      (handlePayment happyEnv sampleProps { initial with selectedMethod := "flutterwave" }).step =
        Step.processing :=
  have h := (C15_flutterwave_outcome happyEnv sampleProps u1
    { initial with selectedMethod := "flutterwave" }
    { status := "success", message := "", data := sampleData } rfl rfl rfl).2.1 rfl
  ⟨h.1, h.2.1⟩

theorem dispatch_calls_append (env : Env) (p : Props) (u : User) (w : World) :
    ∃ l, (dispatch env p u w).world.calls = w.calls ++ l ∧ ∀ c ∈ l, c.isInitiate = true := by
  unfold dispatch
  split
  · exact ⟨_, handlePaystackPayment_calls env p u w, by simp [Call.isInitiate]⟩
  split
  · exact ⟨_, handleFlutterwavePayment_calls env p u w, by simp [Call.isInitiate]⟩
  split
  · rw [handleBankTransfer_calls]
    split
    · exact ⟨[], by simp, by simp⟩
    · exact ⟨_, rfl, by simp [Call.isInitiate]⟩
  split
  · rw [handleUSSDPayment_calls]
    split
    · exact ⟨[], by simp, by simp⟩
    · exact ⟨_, rfl, by simp [Call.isInitiate]⟩
  split
  · rw [handleMobileMoneyPayment_calls]
    split
    · exact ⟨[], by simp, by simp⟩
    · exact ⟨_, rfl, by simp [Call.isInitiate]⟩
  · exact ⟨[], by simp [Outcome.world], by simp⟩

theorem handlePayment_calls_append (env : Env) (p : Props) (w : World) :
    ∃ l, (handlePayment env p w).calls = w.calls ++ l ∧ ∀ c ∈ l, c.isInitiate = true := by
  cases hu : p.currentUser with
  | none => exact ⟨[], by simp [handlePayment, hu, setError], by simp⟩
  | some u =>
    rw [handlePayment_calls_eq env p u w hu]
    exact dispatch_calls_append env p u _

theorem stepEvent_calls_append (env : Env) (p : Props) (e : Event) (w : World)
    (he : e.confirms = false) :
    ∃ l, (stepEvent env p e w).calls = w.calls ++ l ∧ ∀ c ∈ l, c.isInitiate = true := by
  have hpay := handlePayment_calls_append env p w
  have hsame : ∃ l, w.calls = w.calls ++ l ∧ ∀ c ∈ l, c.isInitiate = true :=
    ⟨[], by simp, by simp⟩
  cases e <;> simp [Event.confirms] at he <;> simp only [stepEvent, userEvent] <;>
    (repeat' split) <;>
    first
      | exact hpay
      | exact hsame

theorem isFulfilment_of_isInitiate (c : Call) (h : c.isInitiate = true) :
    c.isFulfilment = false := by
  cases c <;> simp_all [Call.isInitiate, Call.isFulfilment]

/-- C16 on the code: the attestation-only rails.  For a logged-in buyer and a rendered
modal: after a successful initiation on `bank_transfer`, `ussd` or `mobile_money`, the
step is `transfer_details`, `ussd_instructions` or `mobile_money_pending`, `paymentData`
holds the answer, the only call made is the initiation and nothing is scheduled; while
waiting, an event that is not a confirmation adds no fulfilment call; the press of the pay
button followed by the confirm button of `ussd_instructions` or of `mobile_money_pending`
is `completePayment` on the state the initiation left, and followed by the confirm button
of `transfer_details` and its callback it is `completePayment` between `setLoading(true)`
and `setLoading(false)`; `completePayment` calls `processLessonPayment` and then
`purchaseLesson` only (no verify call).  Its step is `success` when both succeed, but it
is `success` exactly when both resolve: also when `purchaseLesson` resolves to `false`,
the failure value of `App.handleLessonPurchase`. -/
theorem C16_attestation_rails (env : Env) (p : Props) (u : User) (L : Lesson)
    (hu : p.currentUser = some u) (hl : p.lesson = some L) :
    (∀ (w : World) (r : GatewayResult),
        w.selectedMethod = "bank_transfer" → w.bankDetails.bankName ≠ "" →
        env.initializeDirectBankTransfer w.calls (amount p) w.bankDetails = Except.ok r →
        r.status = "success" →
        (handlePayment env p w).step = Step.transfer_details ∧
          (handlePayment env p w).paymentData = some r.data ∧
          (handlePayment env p w).calls =
            w.calls ++ [Call.initializeDirectBankTransfer (amount p) w.bankDetails] ∧
          (handlePayment env p w).timers = w.timers ∧
          (handlePayment env p w).loading = false) ∧
      (∀ (w : World) (r : GatewayResult),
        w.selectedMethod = "ussd" → w.bankDetails.bankName ≠ "" →
        env.generateUSSDCode w.calls (amount p) w.bankDetails.bankName = Except.ok r →
        r.status = "success" →
        (handlePayment env p w).step = Step.ussd_instructions ∧
          (handlePayment env p w).paymentData = some r.data ∧
          (handlePayment env p w).calls =
            w.calls ++ [Call.generateUSSDCode (amount p) w.bankDetails.bankName] ∧
          (handlePayment env p w).timers = w.timers ∧
          (handlePayment env p w).loading = false) ∧
      (∀ (w : World) (r : GatewayResult),
        w.selectedMethod = "mobile_money" → w.bankDetails.phoneNumber ≠ "" →
        w.bankDetails.bankName ≠ "" →
        env.initializeMobileMoneyPayment w.calls w.bankDetails.phoneNumber (amount p)
          w.bankDetails.bankName = Except.ok r →
        r.status = "success" →
        (handlePayment env p w).step = Step.mobile_money_pending ∧
          (handlePayment env p w).paymentData = some r.data ∧
          (handlePayment env p w).calls =
            w.calls ++ [Call.initializeMobileMoneyPayment w.bankDetails.phoneNumber (amount p)
              w.bankDetails.bankName] ∧
          (handlePayment env p w).timers = w.timers ∧
          (handlePayment env p w).loading = false) ∧
      (∀ (w : World) (e : Event), e.confirms = false →
        (stepEvent env p e w).calls.countP Call.isFulfilment =
          w.calls.countP Call.isFulfilment) ∧
      (∀ (w : World) (r : GatewayResult),
        w.step = Step.select → w.loading = false →
        w.selectedMethod = "ussd" → w.bankDetails.bankName ≠ "" →
        env.generateUSSDCode w.calls (amount p) w.bankDetails.bankName = Except.ok r →
        r.status = "success" →
        run env p [Event.clickPay, Event.clickConfirmUssd] w =
          completePayment env p ("ussd_" ++ toString env.now) "ussd" (handlePayment env p w)) ∧
      (∀ (w : World) (r : GatewayResult),
        w.step = Step.select → w.loading = false →
        w.selectedMethod = "mobile_money" → w.bankDetails.phoneNumber ≠ "" →
        w.bankDetails.bankName ≠ "" →
        env.initializeMobileMoneyPayment w.calls w.bankDetails.phoneNumber (amount p)
          w.bankDetails.bankName = Except.ok r →
        r.status = "success" →
        run env p [Event.clickPay, Event.clickConfirmMobileMoney] w =
          completePayment env p r.data.transaction_id "mobile_money"
            (handlePayment env p w)) ∧
      (∀ (w : World) (r : GatewayResult),
        w.step = Step.select → w.loading = false →
        w.selectedMethod = "bank_transfer" → w.bankDetails.bankName ≠ "" →
        env.initializeDirectBankTransfer w.calls (amount p) w.bankDetails = Except.ok r →
        r.status = "success" →
        run env p [Event.clickPay, Event.clickConfirmTransfer, Event.fire w.timers.length] w =
          setLoading false
            (completePayment env p r.data.virtual_account "bank_transfer"
              (setLoading true (handlePayment env p w)))) ∧
      (∀ (r g : String) (w : World),
        ((completePayment env p r g w).calls = w.calls ++
            [Call.processLessonPayment u.id (safeCourse p).teacherId (safeCourse p).key
              (safeLesson p).id (amount p)] ∨
          (completePayment env p r g w).calls = w.calls ++
            [Call.processLessonPayment u.id (safeCourse p).teacherId (safeCourse p).key
              (safeLesson p).id (amount p),
             Call.purchaseLesson u.id (safeCourse p).key (safeLesson p).id (amount p)]) ∧
        ((completePayment env p r g w).step = Step.success ↔
          (∃ x, env.processLessonPayment w.calls u.id (safeCourse p).teacherId
              (safeCourse p).key (safeLesson p).id (amount p) = Except.ok x) ∧
            ∃ y, env.purchaseLesson
              (w.calls ++ [Call.processLessonPayment u.id (safeCourse p).teacherId
                (safeCourse p).key (safeLesson p).id (amount p)])
              u.id (safeCourse p).key (safeLesson p).id (amount p) = Except.ok y) ∧
        (∀ (x : Unit) (y : Bool),
          env.processLessonPayment w.calls u.id (safeCourse p).teacherId
              (safeCourse p).key (safeLesson p).id (amount p) = Except.ok x →
          env.purchaseLesson
              (w.calls ++ [Call.processLessonPayment u.id (safeCourse p).teacherId
                (safeCourse p).key (safeLesson p).id (amount p)])
              u.id (safeCourse p).key (safeLesson p).id (amount p) = Except.ok y →
          (completePayment env p r g w).step = Step.success)) := by
  have hln : p.lesson.isNone = false := by simp [hl]
  have bank : ∀ (w : World) (r : GatewayResult),
      w.selectedMethod = "bank_transfer" → w.bankDetails.bankName ≠ "" →
      env.initializeDirectBankTransfer w.calls (amount p) w.bankDetails = Except.ok r →
      r.status = "success" →
      (handlePayment env p w).step = Step.transfer_details ∧
        (handlePayment env p w).paymentData = some r.data ∧
        (handlePayment env p w).calls =
          w.calls ++ [Call.initializeDirectBankTransfer (amount p) w.bankDetails] ∧
        (handlePayment env p w).timers = w.timers ∧
        (handlePayment env p w).loading = false := by
    intro w r hm hb hinit hr
    simp [handlePayment, hu, dispatch, hm, handleBankTransfer, hb, setError, setLoading,
      setStep, record, setPaymentData, hinit, hr]
  have ussd : ∀ (w : World) (r : GatewayResult),
      w.selectedMethod = "ussd" → w.bankDetails.bankName ≠ "" →
      env.generateUSSDCode w.calls (amount p) w.bankDetails.bankName = Except.ok r →
      r.status = "success" →
      (handlePayment env p w).step = Step.ussd_instructions ∧
        (handlePayment env p w).paymentData = some r.data ∧
        (handlePayment env p w).calls =
          w.calls ++ [Call.generateUSSDCode (amount p) w.bankDetails.bankName] ∧
        (handlePayment env p w).timers = w.timers ∧
        (handlePayment env p w).loading = false := by
    intro w r hm hb hinit hr
    simp [handlePayment, hu, dispatch, hm, handleUSSDPayment, hb, setError, setLoading,
      setStep, record, setPaymentData, hinit, hr]
  have mobile : ∀ (w : World) (r : GatewayResult),
      w.selectedMethod = "mobile_money" → w.bankDetails.phoneNumber ≠ "" →
      w.bankDetails.bankName ≠ "" →
      env.initializeMobileMoneyPayment w.calls w.bankDetails.phoneNumber (amount p)
        w.bankDetails.bankName = Except.ok r →
      r.status = "success" →
      (handlePayment env p w).step = Step.mobile_money_pending ∧
        (handlePayment env p w).paymentData = some r.data ∧
        (handlePayment env p w).calls =
          w.calls ++ [Call.initializeMobileMoneyPayment w.bankDetails.phoneNumber (amount p)
            w.bankDetails.bankName] ∧
        (handlePayment env p w).timers = w.timers ∧
        (handlePayment env p w).loading = false := by
    intro w r hm hph hb hinit hr
    simp [handlePayment, hu, dispatch, hm, handleMobileMoneyPayment, hb, hph, setError,
      setLoading, setStep, record, setPaymentData, hinit, hr]
  have pay : ∀ w : World, w.step = Step.select → w.loading = false →
      stepEvent env p Event.clickPay w = handlePayment env p w := by
    intro w hs hload
    simp [stepEvent, userEvent, hln, hs, hload]
  refine ⟨bank, ussd, mobile, ?_, ?_, ?_, ?_, ?_⟩
  · intro w e he
    obtain ⟨l, h1, h2⟩ := stepEvent_calls_append env p e w he
    rw [h1, List.countP_append]
    have : l.countP Call.isFulfilment = 0 := by
      rw [List.countP_eq_zero]
      intro c hc
      simp [isFulfilment_of_isInitiate c (h2 c hc)]
    omega
  · intro w r hs hload hm hb hinit hr
    obtain ⟨hst, _, _, _, _⟩ := ussd w r hm hb hinit hr
    have : run env p [Event.clickPay, Event.clickConfirmUssd] w =
        stepEvent env p Event.clickConfirmUssd (stepEvent env p Event.clickPay w) := by
      simp [run]
    rw [this, pay w hs hload]
    simp [stepEvent, userEvent, hln, hst]
  · intro w r hs hload hm hph hb hinit hr
    obtain ⟨hst, hpd, _, _, _⟩ := mobile w r hm hph hb hinit hr
    have : run env p [Event.clickPay, Event.clickConfirmMobileMoney] w =
        stepEvent env p Event.clickConfirmMobileMoney (stepEvent env p Event.clickPay w) := by
      simp [run]
    rw [this, pay w hs hload]
    simp [stepEvent, userEvent, hln, hst, hpd]
  · intro w r hs hload hm hb hinit hr
    obtain ⟨hst, hpd, _, htm, hld⟩ := bank w r hm hb hinit hr
    have : run env p [Event.clickPay, Event.clickConfirmTransfer, Event.fire w.timers.length]
        w = stepEvent env p (Event.fire w.timers.length)
          (stepEvent env p Event.clickConfirmTransfer (stepEvent env p Event.clickPay w)) := by
      simp [run]
    rw [this, pay w hs hload]
    have hc : stepEvent env p Event.clickConfirmTransfer (handlePayment env p w) =
        setTimeout (Timer.confirmTransfer (some r.data))
          (setLoading true (handlePayment env p w)) := by
      simp [stepEvent, userEvent, hln, hst, hld, handleConfirmTransfer, hpd]
    rw [hc, ← htm]
    simp [stepEvent, setTimeout, setLoading, runTimer, confirmTransferCallback,
      eraseIdx_length_append]
  · intro r g w
    have hiff : (completePayment env p r g w).step = Step.success ↔
        (∃ x, env.processLessonPayment w.calls u.id (safeCourse p).teacherId
            (safeCourse p).key (safeLesson p).id (amount p) = Except.ok x) ∧
          ∃ y, env.purchaseLesson
            (w.calls ++ [Call.processLessonPayment u.id (safeCourse p).teacherId
              (safeCourse p).key (safeLesson p).id (amount p)])
            u.id (safeCourse p).key (safeLesson p).id (amount p) = Except.ok y := by
      unfold completePayment
      rw [hu]
      simp only []
      cases hp : env.processLessonPayment w.calls u.id (safeCourse p).teacherId
          (safeCourse p).key (safeLesson p).id (amount p) with
      | error m => simp [setStep, setError, record]
      | ok x =>
        cases hq : env.purchaseLesson (record (Call.processLessonPayment u.id
            (safeCourse p).teacherId (safeCourse p).key (safeLesson p).id (amount p)) w).calls
            u.id (safeCourse p).key (safeLesson p).id (amount p) with
        | error m =>
          have hq' := hq
          simp only [record] at hq'
          simp [setStep, setError, record, hq']
        | ok y =>
          have hq' := hq
          simp only [record] at hq'
          simp [setStep, setTimeout, record, hq']
    refine ⟨?_, hiff, ?_⟩
    · rw [completePayment_calls_eq, hu]
      simp only []
      split
      · exact Or.inl rfl
      · exact Or.inr rfl
    · intro x y hx hy
      exact hiff.2 ⟨⟨x, hx⟩, ⟨y, hy⟩⟩

/-- C16 at the sample session with `ussd` selected and bank `GTB`: the initiation leads
to `ussd_instructions` with the one call `generateUSSDCode`; and when `purchaseLesson`
resolves to `false`, pay and confirm still end in step `success`. -/
theorem C16_attestation_rails_witness :
    (handlePayment happyEnv sampleProps ussdSelected).step = Step.ussd_instructions ∧
      (handlePayment happyEnv sampleProps ussdSelected).calls =
        [Call.generateUSSDCode 500000 "GTB"] ∧
      run grantRefusedEnv sampleProps [Event.clickPay, Event.clickConfirmUssd] ussdSelected =
        completePayment grantRefusedEnv sampleProps "ussd_1700000000000" "ussd"
          (handlePayment grantRefusedEnv sampleProps ussdSelected) ∧
      (completePayment grantRefusedEnv sampleProps "ussd_1700000000000" "ussd"
        (handlePayment grantRefusedEnv sampleProps ussdSelected)).step = Step.success :=
  have h := (C16_attestation_rails happyEnv sampleProps u1 lessonA rfl rfl).2.1 ussdSelected
    { status := "success", message := "", data := sampleData } rfl (by decide) rfl rfl
  have k := C16_attestation_rails grantRefusedEnv sampleProps u1 lessonA rfl rfl
  have h₅ := k.2.2.2.2.1 ussdSelected
    { status := "success", message := "", data := sampleData } rfl rfl rfl (by decide) rfl rfl
  have h₈ := (k.2.2.2.2.2.2.2 "ussd_1700000000000" "ussd"
    (handlePayment grantRefusedEnv sampleProps ussdSelected)).2.2 () false rfl rfl
  ⟨h.1, h.2.2.1, h₅, h₈⟩

/-- C17: missing rail details are rejected before initiation.  For a logged-in user:
with `bank_transfer` or `ussd` selected and an empty bank name, `handlePayment` ends with
the error `'Please select a bank'`; with `mobile_money` selected, a phone number and an
empty provider, it ends with `'Please select a mobile money provider'`.  In both cases
`setStep` is not called (the step stays `select`), no collaborator is called, nothing is
scheduled and `loading` ends false. -/
theorem C17_missing_details_rejected (env : Env) (p : Props) (u : User) (w : World)
    (hu : p.currentUser = some u) :
    (w.selectedMethod = "bank_transfer" ∨ w.selectedMethod = "ussd" →
        w.bankDetails.bankName = "" →
        (handlePayment env p w).error = "Please select a bank" ∧
          (handlePayment env p w).step = w.step ∧
          (handlePayment env p w).stepLog = w.stepLog ∧
          (handlePayment env p w).calls = w.calls ∧
          (handlePayment env p w).timers = w.timers ∧
          (handlePayment env p w).loading = false) ∧
      (w.selectedMethod = "mobile_money" → w.bankDetails.phoneNumber ≠ "" →
        w.bankDetails.bankName = "" →
        (handlePayment env p w).error = "Please select a mobile money provider" ∧
          (handlePayment env p w).step = w.step ∧
          (handlePayment env p w).stepLog = w.stepLog ∧
          (handlePayment env p w).calls = w.calls ∧
          (handlePayment env p w).timers = w.timers ∧
          (handlePayment env p w).loading = false) := by
  constructor
  · intro hm hb
    rcases hm with hm | hm
    · simp [handlePayment, hu, dispatch, hm, handleBankTransfer, hb, setError, setLoading]
    · simp [handlePayment, hu, dispatch, hm, handleUSSDPayment, hb, setError, setLoading]
  · intro hm hph hb
    simp [handlePayment, hu, dispatch, hm, handleMobileMoneyPayment, hb, hph, setError,
      setLoading]

/-- C17 at the first render with `bank_transfer` selected and no bank chosen. -/
theorem C17_missing_details_rejected_witness :
    (handlePayment happyEnv sampleProps { initial with selectedMethod := "bank_transfer" }).error =
        "Please select a bank" ∧
      (handlePayment happyEnv sampleProps { initial with selectedMethod := "bank_transfer" }).step =
        Step.select ∧
      (handlePayment happyEnv sampleProps { initial with selectedMethod := "bank_transfer" }).calls =
        [] :=
  have h := (C17_missing_details_rejected happyEnv sampleProps u1
    { initial with selectedMethod := "bank_transfer" } rfl).1 (Or.inl rfl) rfl
  ⟨h.1, h.2.1, h.2.2.2.1⟩

theorem dispatch_calls_rail (env : Env) (p : Props) (u : User) (w : World) :
    ∃ l, (dispatch env p u w).world.calls = w.calls ++ l ∧ l.length ≤ 1 ∧
      ∀ c ∈ l, c.rail = some w.selectedMethod := by
  unfold dispatch
  split
  · rename_i h
    exact ⟨_, handlePaystackPayment_calls env p u w, by simp, by simp [Call.rail, h]⟩
  split
  · rename_i h
    exact ⟨_, handleFlutterwavePayment_calls env p u w, by simp, by simp [Call.rail, h]⟩
  split
  · rename_i h
    rw [handleBankTransfer_calls]
    split
    · exact ⟨[], by simp, by simp, by simp⟩
    · exact ⟨_, rfl, by simp, by simp [Call.rail, h]⟩
  split
  · rename_i h
    rw [handleUSSDPayment_calls]
    split
    · exact ⟨[], by simp, by simp, by simp⟩
    · exact ⟨_, rfl, by simp, by simp [Call.rail, h]⟩
  split
  · rename_i h
    rw [handleMobileMoneyPayment_calls]
    split
    · exact ⟨[], by simp, by simp, by simp⟩
    · exact ⟨_, rfl, by simp, by simp [Call.rail, h]⟩
  · exact ⟨[], by simp [Outcome.world], by simp, by simp⟩

theorem handlePayment_loading (env : Env) (p : Props) (u : User) (w : World)
    (hu : p.currentUser = some u) : (handlePayment env p w).loading = false := by
  unfold handlePayment
  rw [hu]
  simp only []
  cases h : dispatch env p u (setError "" (setLoading true w)) <;> simp [setLoading]

/-- C18: the rail is selected by the gateway id.  For a logged-in user the `switch` of
`handlePayment` runs exactly the handler of `selectedMethod` when that is `'paystack'`,
`'flutterwave'`, `'bank_transfer'`, `'ussd'` or `'mobile_money'`: the calls it adds are at
most one, an initiation of that rail.  For every other value no collaborator is called,
nothing is scheduled and the step is `error` with `'Invalid payment method'`.  In all
cases `loading` is false when `handlePayment` has finished. -/
theorem C18_rail_by_gateway_id (env : Env) (p : Props) (u : User) (w : World)
    (hu : p.currentUser = some u) :
    (w.selectedMethod = "paystack" → dispatch env p u w = handlePaystackPayment env p u w) ∧
      (w.selectedMethod = "flutterwave" →
        dispatch env p u w = handleFlutterwavePayment env p u w) ∧
      (w.selectedMethod = "bank_transfer" → dispatch env p u w = handleBankTransfer env p w) ∧
      (w.selectedMethod = "ussd" → dispatch env p u w = handleUSSDPayment env p w) ∧
      (w.selectedMethod = "mobile_money" →
        dispatch env p u w = handleMobileMoneyPayment env p w) ∧
      (∃ l, (handlePayment env p w).calls = w.calls ++ l ∧ l.length ≤ 1 ∧
        ∀ c ∈ l, c.rail = some w.selectedMethod) ∧
      (w.selectedMethod ∉ paymentMethods →
        (handlePayment env p w).calls = w.calls ∧
          (handlePayment env p w).timers = w.timers ∧
          (handlePayment env p w).step = Step.error ∧
          (handlePayment env p w).error = "Invalid payment method") ∧
      (handlePayment env p w).loading = false := by
  refine ⟨?_, ?_, ?_, ?_, ?_, ?_, ?_, handlePayment_loading env p u w hu⟩
  · intro hm; simp [dispatch, hm]
  · intro hm; simp [dispatch, hm]
  · intro hm; simp [dispatch, hm]
  · intro hm; simp [dispatch, hm]
  · intro hm; simp [dispatch, hm]
  · rw [handlePayment_calls_eq env p u w hu]
    exact dispatch_calls_rail env p u (setError "" (setLoading true w))
  · intro hm
    simp [paymentMethods] at hm
    obtain ⟨h1, h2, h3, h4, h5⟩ := hm
    simp [handlePayment, hu, dispatch, h1, h2, h3, h4, h5, setError, setLoading, setStep,
      messageOr]

/-- C18 at the first render, where `paystack` is selected: the one call is the paystack
initiation; and at a state with an unknown method: the step is `error`. -/
theorem C18_rail_by_gateway_id_witness :
    dispatch happyEnv sampleProps u1 initial = handlePaystackPayment happyEnv sampleProps u1 initial ∧
      (handlePayment happyEnv sampleProps { initial with selectedMethod := "cash" }).step =
        Step.error ∧
      (handlePayment happyEnv sampleProps { initial with selectedMethod := "cash" }).error =
        "Invalid payment method" :=
  have h := C18_rail_by_gateway_id happyEnv sampleProps u1 initial rfl
  have h' := (C18_rail_by_gateway_id happyEnv sampleProps u1
    { initial with selectedMethod := "cash" } rfl).2.2.2.2.2.2.1 (by decide)
  ⟨h.1 rfl, h'.2.2.1, h'.2.2.2⟩

end PaymentModal

namespace App

theorem replaceFirst_singleton (c : Char) (l : List Char) :
    replaceFirst [c] [] l = l.erase c := by
  induction l with
  | nil => simp [replaceFirst]
  | cons x xs ih =>
    by_cases h : x = c
    · subst h
      simp [replaceFirst, List.isPrefixOf]
    · have h' : ¬ c = x := fun e => h e.symm
      simp [replaceFirst, List.isPrefixOf, h, h', ih, List.erase_cons]

theorem replace_char (s : String) (c : Char) :
    replace s (String.mk [c]) "" = removeFirst c s := by
  simp [replace, removeFirst, replaceFirst_singleton]

theorem safeObjectKeys_eq_map_fst (obj : JSValue) (l₁ l₂ : String) :
    safeObjectKeys obj l₂ = (safeObjectEntries obj l₁).map Prod.fst := by
  cases obj <;>
    simp [safeObjectKeys, safeObjectEntries, truthy, typeOf, objectKeys, objectEntries,
      Function.comp_def]
  rename_i items
  rw [← List.enum_map_fst items, List.map_map]
  rfl

/-- C19: `safeObjectEntries` and `safeObjectKeys` are total and agree.  Both are functions
into lists (neither throws).  For `null`, `undefined` and every value whose `typeof` is
not `'object'` both return the empty list; for every other value `safeObjectEntries`
returns `Object.entries(obj)` and `safeObjectKeys` returns `Object.keys(obj)`; and for
every value the keys are the first components of the entries. -/
theorem C19_safe_object_helpers (obj : JSValue) (l₁ l₂ : String) :
    (obj = JSValue.null ∨ obj = JSValue.undefined ∨ typeOf obj ≠ "object" →
        safeObjectEntries obj l₁ = [] ∧ safeObjectKeys obj l₂ = []) ∧
      (obj ≠ JSValue.null → obj ≠ JSValue.undefined → typeOf obj = "object" →
        objectEntries obj = Except.ok (safeObjectEntries obj l₁) ∧
          objectKeys obj = Except.ok (safeObjectKeys obj l₂)) ∧
      safeObjectKeys obj l₂ = (safeObjectEntries obj l₁).map Prod.fst := by
  refine ⟨?_, ?_, safeObjectKeys_eq_map_fst obj l₁ l₂⟩
  · intro h
    cases obj <;>
      simp_all [safeObjectKeys, safeObjectEntries, truthy, typeOf]
  · intro h1 h2 h3
    cases obj <;>
      simp_all [safeObjectKeys, safeObjectEntries, truthy, typeOf, objectKeys, objectEntries]

/-- C19 at sample values: an object with two properties, an array and a string. -/
theorem C19_safe_object_helpers_witness :
    safeObjectKeys (JSValue.object [("html", JSValue.number 1), ("css", JSValue.null)]) "App" =
        ["html", "css"] ∧
      safeObjectEntries (JSValue.array [JSValue.boolean true, JSValue.undefined]) "App" =
        [("0", JSValue.boolean true), ("1", JSValue.undefined)] ∧
      safeObjectEntries (JSValue.string "ab") "App" = [] :=
  have h₁ := (C19_safe_object_helpers
    (JSValue.object [("html", JSValue.number 1), ("css", JSValue.null)]) "App" "App").2.1
    (fun h => JSValue.noConfusion h) (fun h => JSValue.noConfusion h) rfl
  have h₂ := (C19_safe_object_helpers
    (JSValue.array [JSValue.boolean true, JSValue.undefined]) "App" "App").2.1
    (fun h => JSValue.noConfusion h) (fun h => JSValue.noConfusion h) rfl
  have h₃ := (C19_safe_object_helpers (JSValue.string "ab") "App" "App").1
    (Or.inr (Or.inr (by decide)))
  ⟨(Except.ok.inj h₁.2).symm, (Except.ok.inj h₂.1).symm, h₃.1⟩

/-- C20: `getCurrentViewFromHash` maps the hash to a view name.  For every hash it is the
view of the specification: with `s` the hash without its first `#`, or `/` if that is
empty, `login` when `s` is `/` and otherwise `s` without its first `/`.  So `''`, `'#'`
and `'#/'` give `login` and `'#/dashboard'` gives `dashboard`. -/
theorem C20_view_from_hash (h : String) :
    getCurrentViewFromHash h = viewOfHashSpec h ∧
      getCurrentViewFromHash "" = "login" ∧
      getCurrentViewFromHash "#" = "login" ∧
      getCurrentViewFromHash "#/" = "login" ∧
      getCurrentViewFromHash "#/dashboard" = "dashboard" := by
  refine ⟨?_, by decide, by decide, by decide, by decide⟩
  have h1 : ∀ s, replace s "#" "" = removeFirst '#' s := fun s => replace_char s '#'
  have h2 : ∀ s, replace s "/" "" = removeFirst '/' s := fun s => replace_char s '/'
  simp only [getCurrentViewFromHash, viewOfHashSpec, h1, h2]

theorem entriesOf_userWithoutPassword (user : JSValue) :
    entriesOf (userWithoutPassword user) =
      (entriesOf user).filter (fun kv => kv.1 != "password") := by
  simp [userWithoutPassword, entriesOf, objectEntries]

theorem find_filter_other (l : List (String × JSValue)) (k : String) (hk : k ≠ "password") :
    (l.filter (fun kv => kv.1 != "password")).find? (fun kv => kv.1 == k) =
      l.find? (fun kv => kv.1 == k) := by
  induction l with
  | nil => rfl
  | cons a l ih =>
    rcases a with ⟨ka, va⟩
    by_cases h1 : ka = "password"
    · subst h1
      have h2 : ("password" == k) = false := by
        simpa using fun e : "password" = k => hk e.symm
      simp [List.filter_cons, List.find?_cons, h2, ih]
    · have h3 : (ka != "password") = true := by simpa using h1
      simp only [List.filter_cons, h3, if_true, List.find?_cons]
      cases h4 : (ka == k) <;> simp [ih]

theorem any_filter_other (l : List (String × JSValue)) (k : String) (hk : k ≠ "password") :
    (l.filter (fun kv => kv.1 != "password")).any (fun kv => kv.1 == k) =
      l.any (fun kv => kv.1 == k) := by
  induction l with
  | nil => rfl
  | cons a l ih =>
    rcases a with ⟨ka, va⟩
    by_cases h1 : ka = "password"
    · subst h1
      have h2 : ("password" == k) = false := by
        simpa using fun e : "password" = k => hk e.symm
      simp only [List.filter_cons, bne_self_eq_false, Bool.false_eq_true, if_false,
        List.any_cons, h2, Bool.false_or]
      exact ih
    · have h3 : (ka != "password") = true := by simpa using h1
      simp only [List.filter_cons, h3, if_true, List.any_cons, ih]

theorem hasOwn_password_userWithoutPassword (user : JSValue) :
    hasOwn (userWithoutPassword user) "password" = false := by
  simp [hasOwn, entriesOf_userWithoutPassword]

theorem userWithoutPassword_other (user : JSValue) (k : String) (hk : k ≠ "password") :
    hasOwn (userWithoutPassword user) k = hasOwn user k ∧
      getProp (userWithoutPassword user) k = getProp user k := by
  constructor
  · simp only [hasOwn, entriesOf_userWithoutPassword]
    exact any_filter_other _ k hk
  · simp only [getProp, entriesOf_userWithoutPassword]
    rw [find_filter_other _ k hk]

/-- C21: `handleLogin` never stores the password.  It returns `true` exactly when
`authenticateUser` returns a user (a truthy value).  In that case the value passed to
`setCurrentUserState` and to `setCurrentUser` is the same, has no `password` property, and
has the properties of the authenticated user with the same values for every other key.
When `authenticateUser` returns nothing or throws, `handleLogin` returns `false`, calls
neither setter, and the current user (the state cell and the stored one) is unchanged. -/
theorem C21_login_drops_password (authenticateUser : String → String → Except String JSValue)
    (email password : String) (s : AppState) :
    ((handleLogin authenticateUser email password).1 = true ↔
        ∃ user, authenticateUser email password = Except.ok user ∧ truthy user = true) ∧
      (∀ user, authenticateUser email password = Except.ok user → truthy user = true →
        userValues (handleLogin authenticateUser email password).2 =
            [userWithoutPassword user, userWithoutPassword user] ∧
          hasOwn (userWithoutPassword user) "password" = false ∧
          (∀ k, k ≠ "password" →
            hasOwn (userWithoutPassword user) k = hasOwn user k ∧
              getProp (userWithoutPassword user) k = getProp user k) ∧
          (applyEffects s (handleLogin authenticateUser email password).2).currentUser =
            userWithoutPassword user ∧
          (applyEffects s (handleLogin authenticateUser email password).2).storedUser =
            userWithoutPassword user) ∧
      ((∃ m, authenticateUser email password = Except.error m) ∨
          (∃ v, authenticateUser email password = Except.ok v ∧ truthy v = false) →
        (handleLogin authenticateUser email password).1 = false ∧
          userValues (handleLogin authenticateUser email password).2 = [] ∧
          (applyEffects s (handleLogin authenticateUser email password).2).currentUser =
            s.currentUser ∧
          (applyEffects s (handleLogin authenticateUser email password).2).storedUser =
            s.storedUser) := by
  refine ⟨?_, ?_, ?_⟩
  · unfold handleLogin
    cases h : authenticateUser email password with
    | error m => simp
    | ok user =>
      by_cases ht : truthy user = true
      · simp [ht]
      · simp [ht]
  · intro user h ht
    refine ⟨?_, hasOwn_password_userWithoutPassword user,
      fun k hk => userWithoutPassword_other user k hk, ?_, ?_⟩ <;>
      simp [handleLogin, h, ht, userValues, applyEffects, applyEffect]
  · intro h
    rcases h with ⟨m, h⟩ | ⟨v, h, hv⟩
    · simp [handleLogin, h, userValues, applyEffects, applyEffect]
    · simp [handleLogin, h, hv, userValues, applyEffects, applyEffect]

/-- C21 at the sample storage: the right password logs `ada` in and the value passed on
has no `password`; a wrong password returns `false` and passes nothing. -/
theorem C21_login_drops_password_witness :
    (handleLogin sampleAuthenticate "ada@example.com" "secret").1 = true ∧
      userValues (handleLogin sampleAuthenticate "ada@example.com" "secret").2 =
        [userWithoutPassword adaRecord, userWithoutPassword adaRecord] ∧
      hasOwn (userWithoutPassword adaRecord) "password" = false ∧
      getProp (userWithoutPassword adaRecord) "role" = getProp adaRecord "role" ∧
      (handleLogin sampleAuthenticate "ada@example.com" "wrong").1 = false ∧
      userValues (handleLogin sampleAuthenticate "ada@example.com" "wrong").2 = [] :=
  have s : AppState :=
    { currentUser := JSValue.null, storedUser := JSValue.null, path := "/login", message := "" }
  have h := C21_login_drops_password sampleAuthenticate "ada@example.com" "secret" s
  have h₂ := h.2.1 adaRecord rfl rfl
  have h' := (C21_login_drops_password sampleAuthenticate "ada@example.com" "wrong" s).2.2
    (Or.inr ⟨JSValue.null, rfl, rfl⟩)
  ⟨h.1.2 ⟨adaRecord, rfl, rfl⟩, h₂.1, h₂.2.1, (h₂.2.2.1 "role" (by decide)).2, h'.1, h'.2.1⟩

theorem strictEqString_iff (v : JSValue) (s : String) :
    strictEqString v s = true ↔ v = JSValue.string s := by
  cases v <;> simp [strictEqString]

theorem optionalRole_eq (u : JSValue) : optionalRole u = getProp u "role" := by
  cases u <;> simp [optionalRole, getProp, entriesOf, objectEntries]

/-- C22: the route guards.  For every value of `currentUser`: `/admin` and
`/admin-courses` render their admin page exactly when `currentUser.role` is `'admin'`,
`/teacher` renders `TeacherDashboard` exactly when `currentUser.role` is `'teacher'`, and
`/dashboard`, `/courses`, `/profile`, `/discussion` render their page exactly when a
current user exists (the value is truthy); in every other case the element of the route
is the redirect to `/login`. -/
theorem C22_route_guards (u : JSValue) :
    (routeElement "/admin" u = Element.page "AdminDashboard" ↔
        getProp u "role" = JSValue.string "admin") ∧
      (getProp u "role" ≠ JSValue.string "admin" →
        routeElement "/admin" u = Element.navigate "/login") ∧
      (routeElement "/admin-courses" u = Element.page "AdminCourseManagement" ↔
        getProp u "role" = JSValue.string "admin") ∧
      (getProp u "role" ≠ JSValue.string "admin" →
        routeElement "/admin-courses" u = Element.navigate "/login") ∧
      (routeElement "/teacher" u = Element.page "TeacherDashboard" ↔
        getProp u "role" = JSValue.string "teacher") ∧
      (getProp u "role" ≠ JSValue.string "teacher" →
        routeElement "/teacher" u = Element.navigate "/login") ∧
      (routeElement "/dashboard" u = Element.page "Dashboard" ↔ truthy u = true) ∧
      (routeElement "/courses" u = Element.page "CourseCatalog" ↔ truthy u = true) ∧
      (routeElement "/profile" u = Element.page "StudentProfile" ↔ truthy u = true) ∧
      (routeElement "/discussion" u = Element.page "DiscussionForum" ↔ truthy u = true) ∧
      (truthy u = false →
        routeElement "/dashboard" u = Element.navigate "/login" ∧
          routeElement "/courses" u = Element.navigate "/login" ∧
          routeElement "/profile" u = Element.navigate "/login" ∧
          routeElement "/discussion" u = Element.navigate "/login") := by
  have role : ∀ r : String,
      (strictEqString (optionalRole u) r = true ↔ getProp u "role" = JSValue.string r) := by
    intro r
    rw [optionalRole_eq, strictEqString_iff]
  have hA : routeElement "/admin" u =
      if strictEqString (optionalRole u) "admin" then Element.page "AdminDashboard"
      else Element.navigate "/login" := by
    simp [routeElement]
  have hC : routeElement "/admin-courses" u =
      if strictEqString (optionalRole u) "admin" then Element.page "AdminCourseManagement"
      else Element.navigate "/login" := by
    simp [routeElement]
  have hT : routeElement "/teacher" u =
      if strictEqString (optionalRole u) "teacher" then Element.page "TeacherDashboard"
      else Element.navigate "/login" := by
    simp [routeElement]
  have hD : routeElement "/dashboard" u =
      if truthy u then Element.page "Dashboard" else Element.navigate "/login" := by
    simp [routeElement]
  have hK : routeElement "/courses" u =
      if truthy u then Element.page "CourseCatalog" else Element.navigate "/login" := by
    simp [routeElement]
  have hP : routeElement "/profile" u =
      if truthy u then Element.page "StudentProfile" else Element.navigate "/login" := by
    simp [routeElement]
  have hF : routeElement "/discussion" u =
      if truthy u then Element.page "DiscussionForum" else Element.navigate "/login" := by
    simp [routeElement]
  have ra := role "admin"
  have rt := role "teacher"
  rw [hA, hC, hT, hD, hK, hP, hF]
  cases ha : strictEqString (optionalRole u) "admin" <;>
    cases ht : strictEqString (optionalRole u) "teacher" <;>
    cases hu : truthy u <;>
    simp_all

/-- C22 at sample users: a teacher gets `TeacherDashboard` at `/teacher` and the redirect
at `/admin`; nobody logged in gets the redirect at `/dashboard`. -/
theorem C22_route_guards_witness :
    routeElement "/teacher" adaRecord = Element.page "TeacherDashboard" ∧
      routeElement "/admin" adaRecord = Element.navigate "/login" ∧
      routeElement "/dashboard" JSValue.null = Element.navigate "/login" :=
  have h := C22_route_guards adaRecord
  have h₀ := (C22_route_guards JSValue.null).2.2.2.2.2.2.2.2.2.2 rfl
  ⟨h.2.2.2.2.1.2 rfl,
    h.2.1 (fun e => absurd (JSValue.string.inj e) (by decide)),
    h₀.1⟩

end App
